import Mathlib

/-!
Report summaries and the resources metrics collector of trivy-operator.

A shallow embedding of

* `pkg/apis/aquasecurity/v1alpha1/rbac_assessment_types.go`
  (`RbacAssessmentSummaryFromChecks`), and
* `pkg/metrics/collector.go` (`ResourcesMetricsCollector.Collect` and its three
  per-kind collectors),

followed by the properties proved about them.

Conventions of the embedding.

* Go `int` values are Lean `Int`s.  The only arithmetic in the sources is the `++` in
  `RbacAssessmentSummaryFromChecks`; a counter there is bounded by the number of checks
  already visited, and the length of a Go slice fits in an `int`, so the increment
  cannot wrap (`machine_summary_eq` below: the loop over 64-bit integers agrees).
* A Go `string` is a Lean `String`, so every string is valid UTF-8 (the strings of a
  report come out of JSON decoding, which yields valid UTF-8).
* A `panic` is the `.error` of `Except String`.
* `float64(count)` is kept symbolic: a gauge value is the term `float64 count`, and no
  property of floating-point numbers is used.
-/

namespace v1alpha1

/-- Go: `type Severity string`. -/
abbrev Severity := String

/-- The four `Severity` constants named by the `switch` of
`RbacAssessmentSummaryFromChecks`.  They are declared in another file of the package and
are parameters here; Go rejects a `switch` with duplicate constant cases, which is the
`distinct` field. -/
structure SeverityLevels where
  SeverityCritical : Severity
  SeverityHigh : Severity
  SeverityMedium : Severity
  SeverityLow : Severity
  distinct : [SeverityCritical, SeverityHigh, SeverityMedium, SeverityLow].Nodup

/-- One concrete choice of the four constants, used to evaluate the definitions. -/
def upperCaseLevels : SeverityLevels where
  SeverityCritical := "CRITICAL"
  SeverityHigh := "HIGH"
  SeverityMedium := "MEDIUM"
  SeverityLow := "LOW"
  distinct := by decide

/-- Modelled from the spec: `Check` is declared in another file of the package; spec §3
gives it a `severity` and a `success` flag, the two fields that
`RbacAssessmentSummaryFromChecks` reads. -/
structure Check where
  Severity : Severity
  Success : Bool
deriving DecidableEq, Repr

/-- Go: `type RbacAssessmentSummary struct`; the zero value has every count `0`. -/
structure RbacAssessmentSummary where
  CriticalCount : Int := 0
  HighCount : Int := 0
  MediumCount : Int := 0
  LowCount : Int := 0
deriving DecidableEq, Repr

/-- The body of the `for _, check := range checks` loop: `continue` on a successful
check, otherwise the `switch check.Severity` (first matching case, no default). -/
def summaryStep (lv : SeverityLevels) (summary : RbacAssessmentSummary) (check : Check) :
    RbacAssessmentSummary :=
  if check.Success then summary
  else if check.Severity = lv.SeverityCritical then
    { summary with CriticalCount := summary.CriticalCount + 1 }
  else if check.Severity = lv.SeverityHigh then
    { summary with HighCount := summary.HighCount + 1 }
  else if check.Severity = lv.SeverityMedium then
    { summary with MediumCount := summary.MediumCount + 1 }
  else if check.Severity = lv.SeverityLow then
    { summary with LowCount := summary.LowCount + 1 }
  else summary

/-- Go: `func RbacAssessmentSummaryFromChecks(checks []Check) RbacAssessmentSummary`. -/
def RbacAssessmentSummaryFromChecks (lv : SeverityLevels) (checks : List Check) :
    RbacAssessmentSummary :=
  checks.foldl (summaryStep lv) {}

/-- The value of a Go `int` (64 bits, two's complement) after an operation whose exact
result is `x`. -/
def wrapInt64 (x : Int) : Int :=
  (x + 9223372036854775808) % 18446744073709551616 - 9223372036854775808

/-- The loop body of `RbacAssessmentSummaryFromChecks` with `++` as the machine
increment, which wraps around. -/
def summaryStep64 (lv : SeverityLevels) (summary : RbacAssessmentSummary) (check : Check) :
    RbacAssessmentSummary :=
  if check.Success then summary
  else if check.Severity = lv.SeverityCritical then
    { summary with CriticalCount := wrapInt64 (summary.CriticalCount + 1) }
  else if check.Severity = lv.SeverityHigh then
    { summary with HighCount := wrapInt64 (summary.HighCount + 1) }
  else if check.Severity = lv.SeverityMedium then
    { summary with MediumCount := wrapInt64 (summary.MediumCount + 1) }
  else if check.Severity = lv.SeverityLow then
    { summary with LowCount := wrapInt64 (summary.LowCount + 1) }
  else summary

/-- A failed check whose severity is exactly `level`. -/
def failsAt (level : Severity) (check : Check) : Bool :=
  !check.Success && decide (check.Severity = level)

/-- The severity is one of the four levels of the `switch`. -/
def recognized (lv : SeverityLevels) (s : Severity) : Bool :=
  decide (s = lv.SeverityCritical) || decide (s = lv.SeverityHigh) ||
    decide (s = lv.SeverityMedium) || decide (s = lv.SeverityLow)

/-- The sum of the four counts of a summary. -/
def RbacAssessmentSummary.total (s : RbacAssessmentSummary) : Int :=
  s.CriticalCount + s.HighCount + s.MediumCount + s.LowCount

/-- Go: `type RbacAssessmentReportData struct`, with the fields `Summary` and `Checks`
(`UpdateTimestamp` and `Scanner` play no part below). -/
structure RbacAssessmentReportData where
  Summary : RbacAssessmentSummary
  Checks : List Check
deriving DecidableEq, Repr

/-- Go: `type RbacAssessmentReport struct`; `Namespace` and `Name` are the two fields of
the embedded `metav1.ObjectMeta` that identify the report. -/
structure RbacAssessmentReport where
  Namespace : String
  Name : String
  Report : RbacAssessmentReportData
deriving DecidableEq, Repr

/-- Modelled from the spec: `VulnerabilitySummary` is declared in another file of the
package; these are the five counts the collector reads (spec §3: one count per severity,
Unknown included). -/
structure VulnerabilitySummary where
  CriticalCount : Int := 0
  HighCount : Int := 0
  MediumCount : Int := 0
  LowCount : Int := 0
  UnknownCount : Int := 0
deriving DecidableEq, Repr

/-- Modelled from the spec: `ExposedSecretSummary` is declared in another file of the
package.  The collector reads `CriticalCount`, `HighCount`, `MediumCount` and `LowCount`;
`UnknownCount` is there because spec §3 says that exposed-secret summaries include
Unknown.  Nothing in the collector reads it. -/
structure ExposedSecretSummary where
  CriticalCount : Int := 0
  HighCount : Int := 0
  MediumCount : Int := 0
  LowCount : Int := 0
  UnknownCount : Int := 0
deriving DecidableEq, Repr

/-- Modelled from the spec: `ConfigAuditSummary` is declared in another file of the
package; these are the four counts the collector reads (spec §3: no Unknown). -/
structure ConfigAuditSummary where
  CriticalCount : Int := 0
  HighCount : Int := 0
  MediumCount : Int := 0
  LowCount : Int := 0
deriving DecidableEq, Repr

/-- Modelled from the spec: the `Registry` of an image-scoped report (spec §3: image
registry server); the collector reads `Server`. -/
structure Registry where
  Server : String
deriving DecidableEq, Repr

/-- Modelled from the spec: the `Artifact` of an image-scoped report (spec §3: image
repository, tag and digest); the collector reads `Repository`, `Tag` and `Digest`. -/
structure Artifact where
  Repository : String
  Tag : String
  Digest : String
deriving DecidableEq, Repr

/-- Modelled from the spec: the part of `VulnerabilityReportData` read by the
collector. -/
structure VulnerabilityReportData where
  Registry : Registry
  Artifact : Artifact
  Summary : VulnerabilitySummary
deriving DecidableEq, Repr

/-- Modelled from the spec: an item of `VulnerabilityReportList`, a named, namespaced
report (spec §3). -/
structure VulnerabilityReport where
  Namespace : String
  Name : String
  Report : VulnerabilityReportData
deriving DecidableEq, Repr

/-- Modelled from the spec: the part of `ExposedSecretReportData` read by the
collector. -/
structure ExposedSecretReportData where
  Registry : Registry
  Artifact : Artifact
  Summary : ExposedSecretSummary
deriving DecidableEq, Repr

/-- Modelled from the spec: an item of `ExposedSecretReportList`, a named, namespaced
report (spec §3). -/
structure ExposedSecretReport where
  Namespace : String
  Name : String
  Report : ExposedSecretReportData
deriving DecidableEq, Repr

/-- Modelled from the spec: the part of `ConfigAuditReportData` read by the collector. -/
structure ConfigAuditReportData where
  Summary : ConfigAuditSummary
deriving DecidableEq, Repr

/-- Modelled from the spec: an item of `ConfigAuditReportList`, a named, namespaced
report (spec §3). -/
structure ConfigAuditReport where
  Namespace : String
  Name : String
  Report : ConfigAuditReportData
deriving DecidableEq, Repr

end v1alpha1

/-! ## The Prometheus client library, as far as the collector uses it -/

namespace prometheus

/-- Go: `prometheus.BuildFQName`: the non-empty parts joined by `_`. -/
def BuildFQName (ns subsystem name : String) : String :=
  if name = "" then ""
  else if ns ≠ "" ∧ subsystem ≠ "" then ns ++ "_" ++ subsystem ++ "_" ++ name
  else if ns ≠ "" then ns ++ "_" ++ name
  else if subsystem ≠ "" then subsystem ++ "_" ++ name
  else name

/-- A metric descriptor: fully qualified name, help text and the declared (ordered)
variable labels.  The collector passes `nil` const labels. -/
structure Desc where
  fqName : String
  help : String
  variableLabels : List String
deriving DecidableEq, Repr

/-- Go: `prometheus.NewDesc(fqName, help, variableLabels, nil)`. -/
def NewDesc (fqName help : String) (variableLabels : List String) : Desc :=
  ⟨fqName, help, variableLabels⟩

/-- Go: `prometheus.ValueType`. -/
inductive ValueType where
  | CounterValue
  | GaugeValue
  | UntypedValue
deriving DecidableEq, Repr

/-- A Go `float64` that is the conversion of an `int`.  The conversion is symbolic: the
value records the integer that was converted. -/
structure Float64 where
  ofInt :: (int : Int)
deriving DecidableEq, Repr

/-- Go: the conversion `float64(count)` of an `int`. -/
def float64 (count : Int) : Float64 := Float64.ofInt count

/-- A constant metric, that is one sample: its descriptor, its type, its value and its
label values, in the order of the descriptor's variable labels. -/
structure Metric where
  desc : Desc
  valType : ValueType
  value : Float64
  labelValues : List String
deriving DecidableEq, Repr

/-- Modelled from the spec: `prometheus.MustNewConstMetric` belongs to the client library.
Spec §4.3 and §7: a label tuple whose cardinality does not match the descriptor is fatal;
here it panics when the number of label values is not the number of variable labels of
the descriptor, and otherwise the metric holds a copy of the label values.  (The library
also rejects a label value that is not valid UTF-8; a `String` always is.) -/
def MustNewConstMetric (desc : Desc) (valueType : ValueType) (value : Float64)
    (labelValues : List String) : Except String Metric :=
  if labelValues.length = desc.variableLabels.length then
    .ok ⟨desc, valueType, value, labelValues⟩
  else .error "inconsistent label cardinality"

end prometheus

/-! ## `pkg/metrics/collector.go` -/

namespace metrics

open v1alpha1 prometheus

/-- Go: `const namespace = "namespace"`. -/
def namespace_ : String := "namespace"
/-- Go: `const name = "name"`. -/
def name : String := "name"
/-- Go: `const image_registry = "image_registry"`. -/
def image_registry : String := "image_registry"
/-- Go: `const image_repository = "image_repository"`. -/
def image_repository : String := "image_repository"
/-- Go: `const image_tag = "image_tag"`. -/
def image_tag : String := "image_tag"
/-- Go: `const image_digest = "image_digest"`. -/
def image_digest : String := "image_digest"
/-- Go: `const severity = "severity"`. -/
def severity : String := "severity"

/-- Go: `imageVulnLabels`. -/
def imageVulnLabels : List String :=
  [namespace_, name, image_registry, image_repository, image_tag, image_digest, severity]

/-- Go: `imageVulnDesc`. -/
def imageVulnDesc : Desc :=
  NewDesc (BuildFQName "trivy" "image" "vulnerabilities")
    "Number of container image vulnerabilities" imageVulnLabels

/-- Go: the map `imageVulnSeverities`, as its entries in the order of the literal.  A
`range` over it goes through `rangeMap`. -/
def imageVulnSeverities : List (String × (VulnerabilitySummary → Int)) :=
  [("Critical", fun vs => vs.CriticalCount),
   ("High", fun vs => vs.HighCount),
   ("Medium", fun vs => vs.MediumCount),
   ("Low", fun vs => vs.LowCount),
   ("Unknown", fun vs => vs.UnknownCount)]

/-- Go: `exposedSecretLabels`. -/
def exposedSecretLabels : List String :=
  [namespace_, name, image_registry, image_repository, image_tag, image_digest, severity]

/-- Go: `exposedSecretDesc`. -/
def exposedSecretDesc : Desc :=
  NewDesc (BuildFQName "trivy" "image" "exposedsecrets")
    "Number of image exposed secrets" exposedSecretLabels

/-- Go: the map `exposedSecretSeverities`, as its entries in the order of the literal. -/
def exposedSecretSeverities : List (String × (ExposedSecretSummary → Int)) :=
  [("Critical", fun vs => vs.CriticalCount),
   ("High", fun vs => vs.HighCount),
   ("Medium", fun vs => vs.MediumCount),
   ("Low", fun vs => vs.LowCount)]

/-- Go: `configAuditLabels`. -/
def configAuditLabels : List String :=
  [namespace_, name, severity]

/-- Go: `configAuditDesc`. -/
def configAuditDesc : Desc :=
  NewDesc (BuildFQName "trivy" "resource" "configaudits")
    "Number of failing resource configuration auditing checks" configAuditLabels

/-- Go: the map `configAuditSeverities`, as its entries in the order of the literal. -/
def configAuditSeverities : List (String × (ConfigAuditSummary → Int)) :=
  [("Critical", fun cas => cas.CriticalCount),
   ("High", fun cas => cas.HighCount),
   ("Medium", fun cas => cas.MediumCount),
   ("Low", fun cas => cas.LowCount)]

/-- The kind of list a `List` call of the client is asked to fill. -/
inductive Kind where
  | VulnerabilityReport
  | ExposedSecretReport
  | ConfigAuditReport
  | RbacAssessmentReport
deriving DecidableEq, Repr

/-- Modelled from the spec: `client.Client` belongs to controller-runtime.  Spec §6: the
cached lister is `List(kind, namespaceFilter) -> (items, error)`.  Here
`List(ctx, list, client.InNamespace(n))` is one lister for each kind of list object, from
the namespace filter to the items it stores in the list object or the error it returns;
the cache is a snapshot during a pass. -/
structure Client where
  ListVulnerabilityReports : String → Except String (List VulnerabilityReport)
  ListExposedSecretReports : String → Except String (List ExposedSecretReport)
  ListConfigAuditReports : String → Except String (List ConfigAuditReport)
  ListRbacAssessmentReports : String → Except String (List RbacAssessmentReport)

/-- Modelled from the spec: `etc.Config` is declared in another package of the
repository.  Spec §6: a read-only value exposing the target namespaces (empty = all); the
field is the result of `GetTargetNamespaces()`, all the collector uses. -/
structure Config where
  GetTargetNamespaces : List String

/-- Go: `type ResourcesMetricsCollector struct`.  The embedded `logr.Logger` is the
`errorLog` of `World`. -/
structure ResourcesMetricsCollector where
  Config : Config
  Client : Client

/-- One `c.Logger.Error(err, msg, "namespace", n)` call. -/
structure LogEntry where
  err : String
  msg : String
  namespaceValue : String
deriving DecidableEq, Repr

/-- The Go runtime's choice of iteration order for maps: for the `k`-th `range` over a
map executed in a pass, a permutation of the positions of its `n` entries. -/
structure Runtime where
  mapOrder : Nat → (n : Nat) → Equiv.Perm (Fin n)

/-- Go: `for key, value := range m` over a map with the given entries: each entry once,
in the order the runtime chose. -/
def rangeMap {α : Type} (entries : List α) (σ : Equiv.Perm (Fin entries.length)) : List α :=
  List.ofFn fun i => entries.get (σ i)

/-- What a pass does to the outside: the metrics sent on the channel (oldest first), the
`List` calls made on the client, the errors logged, and the number of map `range` loops
executed so far. -/
structure World where
  metrics : List Metric := []
  listCalls : List (Kind × String) := []
  errorLog : List LogEntry := []
  ranges : Nat := 0

/-- Go: `labelValues[i] = v`, which panics when `i` is out of range. -/
def setIndex (labelValues : List String) (i : Nat) (v : String) : Except String (List String) :=
  if i < labelValues.length then .ok (labelValues.set i v) else .error "index out of range"

/-- The `for severity, countFn := range imageVulnSeverities` loop of
`collectVulnerabilityReports` for the report `r`, over the entries in iteration order. -/
def vulnerabilitySeverityLoop (r : VulnerabilityReport) :
    List (String × (VulnerabilitySummary → Int)) → List String → World →
      Except String (List String × World)
  | [], labelValues, w => .ok (labelValues, w)
  | (severity, countFn) :: rest, labelValues, w => do
    let labelValues ← setIndex labelValues 6 severity
    let count := countFn r.Report.Summary
    let m ← MustNewConstMetric imageVulnDesc ValueType.GaugeValue (float64 count) labelValues
    vulnerabilitySeverityLoop r rest labelValues { w with metrics := w.metrics ++ [m] }

/-- The `for _, r := range reports.Items` loop of `collectVulnerabilityReports`. -/
def vulnerabilityReportLoop (rt : Runtime) :
    List VulnerabilityReport → List String → World → Except String (List String × World)
  | [], labelValues, w => .ok (labelValues, w)
  | r :: rest, labelValues, w => do
    let labelValues ← setIndex labelValues 0 r.Namespace
    let labelValues ← setIndex labelValues 1 r.Name
    let labelValues ← setIndex labelValues 2 r.Report.Registry.Server
    let labelValues ← setIndex labelValues 3 r.Report.Artifact.Repository
    let labelValues ← setIndex labelValues 4 r.Report.Artifact.Tag
    let labelValues ← setIndex labelValues 5 r.Report.Artifact.Digest
    let (labelValues, w) ← vulnerabilitySeverityLoop r
      (rangeMap imageVulnSeverities (rt.mapOrder w.ranges _)) labelValues
      { w with ranges := w.ranges + 1 }
    vulnerabilityReportLoop rt rest labelValues w

/-- The `for _, n := range targetNamespaces` loop of `collectVulnerabilityReports`.  The
list object `reports` and the buffer `labelValues` live across iterations; a failed
`List` is logged and the iteration ends (`continue`) with `reports` as it was. -/
def vulnerabilityNamespaceLoop (c : ResourcesMetricsCollector) (rt : Runtime) :
    List String → List VulnerabilityReport → List String → World →
      Except String (List VulnerabilityReport × List String × World)
  | [], reports, labelValues, w => .ok (reports, labelValues, w)
  | n :: rest, reports, labelValues, w =>
    let w := { w with listCalls := w.listCalls ++ [(Kind.VulnerabilityReport, n)] }
    match c.Client.ListVulnerabilityReports n with
    | .error err =>
      vulnerabilityNamespaceLoop c rt rest reports labelValues
        { w with errorLog := w.errorLog ++
            [⟨err, "failed to list vulnerabilityreports from API", n⟩] }
    | .ok items => do
      let reports := items
      let (labelValues, w) ← vulnerabilityReportLoop rt reports labelValues w
      vulnerabilityNamespaceLoop c rt rest reports labelValues w

/-- Go: `func (c ResourcesMetricsCollector) collectVulnerabilityReports(ctx, metrics,
targetNamespaces)`. -/
def collectVulnerabilityReports (c : ResourcesMetricsCollector) (rt : Runtime) (w : World)
    (targetNamespaces : List String) : Except String World := do
  let reports : List VulnerabilityReport := []
  let labelValues := List.replicate 7 ""
  let (_, _, w) ← vulnerabilityNamespaceLoop c rt targetNamespaces reports labelValues w
  pure w

/-- The `for severity, countFn := range exposedSecretSeverities` loop of
`collectExposedSecretsReports` for the report `r`, over the entries in iteration order. -/
def exposedSecretSeverityLoop (r : ExposedSecretReport) :
    List (String × (ExposedSecretSummary → Int)) → List String → World →
      Except String (List String × World)
  | [], labelValues, w => .ok (labelValues, w)
  | (severity, countFn) :: rest, labelValues, w => do
    let labelValues ← setIndex labelValues 6 severity
    let count := countFn r.Report.Summary
    let m ← MustNewConstMetric exposedSecretDesc ValueType.GaugeValue (float64 count) labelValues
    exposedSecretSeverityLoop r rest labelValues { w with metrics := w.metrics ++ [m] }

/-- The `for _, r := range reports.Items` loop of `collectExposedSecretsReports`. -/
def exposedSecretReportLoop (rt : Runtime) :
    List ExposedSecretReport → List String → World → Except String (List String × World)
  | [], labelValues, w => .ok (labelValues, w)
  | r :: rest, labelValues, w => do
    let labelValues ← setIndex labelValues 0 r.Namespace
    let labelValues ← setIndex labelValues 1 r.Name
    let labelValues ← setIndex labelValues 2 r.Report.Registry.Server
    let labelValues ← setIndex labelValues 3 r.Report.Artifact.Repository
    let labelValues ← setIndex labelValues 4 r.Report.Artifact.Tag
    let labelValues ← setIndex labelValues 5 r.Report.Artifact.Digest
    let (labelValues, w) ← exposedSecretSeverityLoop r
      (rangeMap exposedSecretSeverities (rt.mapOrder w.ranges _)) labelValues
      { w with ranges := w.ranges + 1 }
    exposedSecretReportLoop rt rest labelValues w

/-- The `for _, n := range targetNamespaces` loop of `collectExposedSecretsReports`. -/
def exposedSecretNamespaceLoop (c : ResourcesMetricsCollector) (rt : Runtime) :
    List String → List ExposedSecretReport → List String → World →
      Except String (List ExposedSecretReport × List String × World)
  | [], reports, labelValues, w => .ok (reports, labelValues, w)
  | n :: rest, reports, labelValues, w =>
    let w := { w with listCalls := w.listCalls ++ [(Kind.ExposedSecretReport, n)] }
    match c.Client.ListExposedSecretReports n with
    | .error err =>
      exposedSecretNamespaceLoop c rt rest reports labelValues
        { w with errorLog := w.errorLog ++
            [⟨err, "failed to list exposedsecretreports from API", n⟩] }
    | .ok items => do
      let reports := items
      let (labelValues, w) ← exposedSecretReportLoop rt reports labelValues w
      exposedSecretNamespaceLoop c rt rest reports labelValues w

/-- Go: `func (c ResourcesMetricsCollector) collectExposedSecretsReports(ctx, metrics,
targetNamespaces)`. -/
def collectExposedSecretsReports (c : ResourcesMetricsCollector) (rt : Runtime) (w : World)
    (targetNamespaces : List String) : Except String World := do
  let reports : List ExposedSecretReport := []
  let labelValues := List.replicate 7 ""
  let (_, _, w) ← exposedSecretNamespaceLoop c rt targetNamespaces reports labelValues w
  pure w

/-- The `for severity, countFn := range configAuditSeverities` loop of
`collectConfigAuditReports` for the report `r`, over the entries in iteration order. -/
def configAuditSeverityLoop (r : ConfigAuditReport) :
    List (String × (ConfigAuditSummary → Int)) → List String → World →
      Except String (List String × World)
  | [], labelValues, w => .ok (labelValues, w)
  | (severity, countFn) :: rest, labelValues, w => do
    let labelValues ← setIndex labelValues 2 severity
    let count := countFn r.Report.Summary
    let m ← MustNewConstMetric configAuditDesc ValueType.GaugeValue (float64 count) labelValues
    configAuditSeverityLoop r rest labelValues { w with metrics := w.metrics ++ [m] }

/-- The `for _, r := range reports.Items` loop of `collectConfigAuditReports`. -/
def configAuditReportLoop (rt : Runtime) :
    List ConfigAuditReport → List String → World → Except String (List String × World)
  | [], labelValues, w => .ok (labelValues, w)
  | r :: rest, labelValues, w => do
    let labelValues ← setIndex labelValues 0 r.Namespace
    let labelValues ← setIndex labelValues 1 r.Name
    let (labelValues, w) ← configAuditSeverityLoop r
      (rangeMap configAuditSeverities (rt.mapOrder w.ranges _)) labelValues
      { w with ranges := w.ranges + 1 }
    configAuditReportLoop rt rest labelValues w

/-- The `for _, n := range targetNamespaces` loop of `collectConfigAuditReports`. -/
def configAuditNamespaceLoop (c : ResourcesMetricsCollector) (rt : Runtime) :
    List String → List ConfigAuditReport → List String → World →
      Except String (List ConfigAuditReport × List String × World)
  | [], reports, labelValues, w => .ok (reports, labelValues, w)
  | n :: rest, reports, labelValues, w =>
    let w := { w with listCalls := w.listCalls ++ [(Kind.ConfigAuditReport, n)] }
    match c.Client.ListConfigAuditReports n with
    | .error err =>
      configAuditNamespaceLoop c rt rest reports labelValues
        { w with errorLog := w.errorLog ++
            [⟨err, "failed to list configauditreports from API", n⟩] }
    | .ok items => do
      let reports := items
      let (labelValues, w) ← configAuditReportLoop rt reports labelValues w
      configAuditNamespaceLoop c rt rest reports labelValues w

/-- Go: `func (c *ResourcesMetricsCollector) collectConfigAuditReports(ctx, metrics,
targetNamespaces)`. -/
def collectConfigAuditReports (c : ResourcesMetricsCollector) (rt : Runtime) (w : World)
    (targetNamespaces : List String) : Except String World := do
  let reports : List ConfigAuditReport := []
  let labelValues := List.replicate 3 ""
  let (_, _, w) ← configAuditNamespaceLoop c rt targetNamespaces reports labelValues w
  pure w

/-- Go: `func (c ResourcesMetricsCollector) Collect(metrics chan<- prometheus.Metric)`,
run in the world `w`. -/
def Collect (c : ResourcesMetricsCollector) (rt : Runtime) (w : World) : Except String World := do
  let targetNamespaces := c.Config.GetTargetNamespaces
  let targetNamespaces :=
    if targetNamespaces.length = 0 then targetNamespaces ++ [""] else targetNamespaces
  let w ← collectVulnerabilityReports c rt w targetNamespaces
  let w ← collectExposedSecretsReports c rt w targetNamespaces
  collectConfigAuditReports c rt w targetNamespaces

/-- Go: `func (c ResourcesMetricsCollector) Describe(descs chan<- *prometheus.Desc)`: the
descriptors sent, in order. -/
def Describe : List Desc :=
  [imageVulnDesc, configAuditDesc, exposedSecretDesc]

/-- The runtime that visits every map in the order of its literal. -/
def literalOrder : Runtime := ⟨fun _ _ => Equiv.refl _⟩

/-! ### Reference description of a pass

The definitions below are not taken from the code: they say, as plain list
comprehensions, what a pass is expected to emit, call and log.  The theorems relate the
loops above to them. -/

/-- The items returned by the successful listings over the namespaces, in order; a
namespace whose listing fails gives nothing. -/
def listed {ρ : Type} (list : String → Except String (List ρ)) (targetNamespaces : List String) :
    List ρ :=
  targetNamespaces.flatMap fun n =>
    match list n with
    | .ok items => items
    | .error _ => []

/-- The log entries of the failed listings over the namespaces, in order. -/
def listFailures {ρ : Type} (list : String → Except String (List ρ)) (msg : String)
    (targetNamespaces : List String) : List LogEntry :=
  targetNamespaces.filterMap fun n =>
    match list n with
    | .ok _ => none
    | .error err => some ⟨err, msg, n⟩

/-- The six identity label values of a vulnerability report. -/
def vulnerabilityIdentity (r : VulnerabilityReport) : List String :=
  [r.Namespace, r.Name, r.Report.Registry.Server, r.Report.Artifact.Repository,
    r.Report.Artifact.Tag, r.Report.Artifact.Digest]

/-- The gauge of a vulnerability report for one severity bucket. -/
def vulnerabilitySample (r : VulnerabilityReport) (sev : String) (count : Int) : Metric :=
  ⟨imageVulnDesc, ValueType.GaugeValue, float64 count, vulnerabilityIdentity r ++ [sev]⟩

/-- The gauges of a list of vulnerability reports when the `range` loops are numbered from
`k`: report by report, the buckets in the order the runtime chose for that report. -/
def vulnerabilitySamples (rt : Runtime) : Nat → List VulnerabilityReport → List Metric
  | _, [] => []
  | k, r :: rest =>
    (rangeMap imageVulnSeverities (rt.mapOrder k _)).map
        (fun e => vulnerabilitySample r e.1 (e.2 r.Report.Summary)) ++
      vulnerabilitySamples rt (k + 1) rest

/-- The six identity label values of an exposed-secret report. -/
def exposedSecretIdentity (r : ExposedSecretReport) : List String :=
  [r.Namespace, r.Name, r.Report.Registry.Server, r.Report.Artifact.Repository,
    r.Report.Artifact.Tag, r.Report.Artifact.Digest]

/-- The gauge of an exposed-secret report for one severity bucket. -/
def exposedSecretSample (r : ExposedSecretReport) (sev : String) (count : Int) : Metric :=
  ⟨exposedSecretDesc, ValueType.GaugeValue, float64 count, exposedSecretIdentity r ++ [sev]⟩

/-- The gauges of a list of exposed-secret reports when the `range` loops are numbered
from `k`. -/
def exposedSecretSamples (rt : Runtime) : Nat → List ExposedSecretReport → List Metric
  | _, [] => []
  | k, r :: rest =>
    (rangeMap exposedSecretSeverities (rt.mapOrder k _)).map
        (fun e => exposedSecretSample r e.1 (e.2 r.Report.Summary)) ++
      exposedSecretSamples rt (k + 1) rest

/-- The two identity label values of a config-audit report. -/
def configAuditIdentity (r : ConfigAuditReport) : List String :=
  [r.Namespace, r.Name]

/-- The gauge of a config-audit report for one severity bucket. -/
def configAuditSample (r : ConfigAuditReport) (sev : String) (count : Int) : Metric :=
  ⟨configAuditDesc, ValueType.GaugeValue, float64 count, configAuditIdentity r ++ [sev]⟩

/-- The gauges of a list of config-audit reports when the `range` loops are numbered from
`k`. -/
def configAuditSamples (rt : Runtime) : Nat → List ConfigAuditReport → List Metric
  | _, [] => []
  | k, r :: rest =>
    (rangeMap configAuditSeverities (rt.mapOrder k _)).map
        (fun e => configAuditSample r e.1 (e.2 r.Report.Summary)) ++
      configAuditSamples rt (k + 1) rest

/-- The namespaces a pass lists: the configured ones, or the single unscoped filter `""`
when none is configured. -/
def resolvedNamespaces (c : ResourcesMetricsCollector) : List String :=
  if c.Config.GetTargetNamespaces = [] then [""] else c.Config.GetTargetNamespaces

/-- The five gauges of one vulnerability report, in the order of the map literal. -/
def vulnerabilityBuckets (r : VulnerabilityReport) : List Metric :=
  [vulnerabilitySample r "Critical" r.Report.Summary.CriticalCount,
   vulnerabilitySample r "High" r.Report.Summary.HighCount,
   vulnerabilitySample r "Medium" r.Report.Summary.MediumCount,
   vulnerabilitySample r "Low" r.Report.Summary.LowCount,
   vulnerabilitySample r "Unknown" r.Report.Summary.UnknownCount]

/-- The four gauges of one exposed-secret report, in the order of the map literal. -/
def exposedSecretBuckets (r : ExposedSecretReport) : List Metric :=
  [exposedSecretSample r "Critical" r.Report.Summary.CriticalCount,
   exposedSecretSample r "High" r.Report.Summary.HighCount,
   exposedSecretSample r "Medium" r.Report.Summary.MediumCount,
   exposedSecretSample r "Low" r.Report.Summary.LowCount]

/-- The four gauges of one config-audit report, in the order of the map literal. -/
def configAuditBuckets (r : ConfigAuditReport) : List Metric :=
  [configAuditSample r "Critical" r.Report.Summary.CriticalCount,
   configAuditSample r "High" r.Report.Summary.HighCount,
   configAuditSample r "Medium" r.Report.Summary.MediumCount,
   configAuditSample r "Low" r.Report.Summary.LowCount]

/-- A lister that answers like `list`, except that it returns no item where `list`
fails. -/
def emptyOnFailure {ρ : Type} (list : String → Except String (List ρ)) :
    String → Except String (List ρ) :=
  fun n =>
    match list n with
    | .ok items => .ok items
    | .error _ => .ok []

/-- The collector `c` over a cache in which every failing listing is replaced by an empty
successful one. -/
def withEmptyOnFailure (c : ResourcesMetricsCollector) : ResourcesMetricsCollector :=
  { c with
    Client :=
      { ListVulnerabilityReports := emptyOnFailure c.Client.ListVulnerabilityReports
        ListExposedSecretReports := emptyOnFailure c.Client.ListExposedSecretReports
        ListConfigAuditReports := emptyOnFailure c.Client.ListConfigAuditReports
        ListRbacAssessmentReports := emptyOnFailure c.Client.ListRbacAssessmentReports } }

/-- A lister over a cache that holds `items`: a scoped listing returns the items of that
namespace, the unscoped listing all of them. -/
def cacheOf {ρ : Type} (namespaceOf : ρ → String) (items : List ρ) :
    String → Except String (List ρ) :=
  fun n => .ok (items.filter fun r => n = "" || namespaceOf r = n)

/-- The vulnerability report of the end-to-end scenario of the spec, under the name
`reportName`. -/
def scenarioReport (reportName : String) : VulnerabilityReport :=
  { Namespace := "ns1"
    Name := reportName
    Report :=
      { Registry := ⟨"reg.io"⟩
        Artifact := ⟨"app", "v1", "sha256:abc"⟩
        Summary := { CriticalCount := 2, HighCount := 0, MediumCount := 1, LowCount := 0,
                     UnknownCount := 0 } } }

/-- The end-to-end scenario of the spec: the cache holds the one vulnerability report and
nothing else, and the configured target namespaces are `targetNamespaces`. -/
def scenarioCollector (reportName : String) (targetNamespaces : List String) :
    ResourcesMetricsCollector :=
  { Config := ⟨targetNamespaces⟩
    Client :=
      { ListVulnerabilityReports := cacheOf (fun r => r.Namespace) [scenarioReport reportName]
        ListExposedSecretReports := cacheOf (fun r => r.Namespace) []
        ListConfigAuditReports := cacheOf (fun r => r.Namespace) []
        ListRbacAssessmentReports := cacheOf (fun r => r.Namespace) [] } }

/-- An exposed-secret report in `ns1` with one finding in every bucket, Unknown
included. -/
def secretReportExample : ExposedSecretReport :=
  { Namespace := "ns1"
    Name := "secrets"
    Report :=
      { Registry := ⟨"reg.io"⟩
        Artifact := ⟨"app", "v1", "sha256:abc"⟩
        Summary := { CriticalCount := 1, HighCount := 1, MediumCount := 1, LowCount := 1,
                     UnknownCount := 1 } } }

/-- A collector for `ns1` over a cache that holds `secretReportExample` and nothing
else. -/
def secretCollectorExample : ResourcesMetricsCollector :=
  { Config := ⟨["ns1"]⟩
    Client :=
      { ListVulnerabilityReports := cacheOf (fun r => r.Namespace) []
        ListExposedSecretReports := cacheOf (fun r => r.Namespace) [secretReportExample]
        ListConfigAuditReports := cacheOf (fun r => r.Namespace) []
        ListRbacAssessmentReports := cacheOf (fun r => r.Namespace) [] } }

/-- An RBAC-assessment report in `ns1` whose one check is a failed critical one. -/
def rbacReportExample : RbacAssessmentReport :=
  { Namespace := "ns1"
    Name := "role-admin"
    Report :=
      { Summary := RbacAssessmentSummaryFromChecks upperCaseLevels [⟨"CRITICAL", false⟩]
        Checks := [⟨"CRITICAL", false⟩] } }

/-- A collector for `ns1` over a cache that holds `rbacReportExample` and nothing else. -/
def rbacCollectorExample : ResourcesMetricsCollector :=
  { Config := ⟨["ns1"]⟩
    Client :=
      { ListVulnerabilityReports := cacheOf (fun r => r.Namespace) []
        ListExposedSecretReports := cacheOf (fun r => r.Namespace) []
        ListConfigAuditReports := cacheOf (fun r => r.Namespace) []
        ListRbacAssessmentReports := cacheOf (fun r => r.Namespace) [rbacReportExample] } }

end metrics

/-! ## Theorems -/

namespace metrics
open v1alpha1 prometheus

theorem setIndex_ok (l : List String) (i : Nat) (v : String) (h : i < l.length) :
    setIndex l i v = .ok (l.set i v) := by
  simp [setIndex, h]

theorem length_seven {l : List String} (h : l.length = 7) :
    ∃ a b c d e f g, l = [a, b, c, d, e, f, g] := by
  match l, h with
  | [a, b, c, d, e, f, g], _ => exact ⟨a, b, c, d, e, f, g, rfl⟩

theorem length_three {l : List String} (h : l.length = 3) :
    ∃ a b c, l = [a, b, c] := by
  match l, h with
  | [a, b, c], _ => exact ⟨a, b, c, rfl⟩

theorem listed_cons_ok {ρ : Type} (list : String → Except String (List ρ)) (n : String)
    (rest : List String) (items : List ρ) (h : list n = .ok items) :
    listed list (n :: rest) = items ++ listed list rest := by
  simp [listed, h]

theorem listed_cons_error {ρ : Type} (list : String → Except String (List ρ)) (n : String)
    (rest : List String) (err : String) (h : list n = .error err) :
    listed list (n :: rest) = listed list rest := by
  simp [listed, h]

theorem listFailures_cons_ok {ρ : Type} (list : String → Except String (List ρ)) (msg n : String)
    (rest : List String) (items : List ρ) (h : list n = .ok items) :
    listFailures list msg (n :: rest) = listFailures list msg rest := by
  simp [listFailures, h]

theorem listFailures_cons_error {ρ : Type} (list : String → Except String (List ρ))
    (msg n : String) (rest : List String) (err : String) (h : list n = .error err) :
    listFailures list msg (n :: rest) = ⟨err, msg, n⟩ :: listFailures list msg rest := by
  simp [listFailures, h]

/-! ### The vulnerability collector is its reference description -/

theorem vulnerabilitySeverityLoop_eq (r : VulnerabilityReport)
    (es : List (String × (VulnerabilitySummary → Int))) (ident : List String) (x : String)
    (w : World) (hid : ident.length = 6) :
    ∃ x', vulnerabilitySeverityLoop r es (ident ++ [x]) w =
      .ok (ident ++ [x'], { w with metrics := w.metrics ++ es.map fun e =>
        ⟨imageVulnDesc, ValueType.GaugeValue, float64 (e.2 r.Report.Summary), ident ++ [e.1]⟩ }) := by
  induction es generalizing x w with
  | nil => exact ⟨x, by simp [vulnerabilitySeverityLoop]⟩
  | cons e es ih =>
    obtain ⟨sev, countFn⟩ := e
    have hset : setIndex (ident ++ [x]) 6 sev = .ok (ident ++ [sev]) := by
      rw [setIndex_ok _ _ _ (by simp [hid])]
      congr 1
      rw [← hid]
      simp
    have hm : MustNewConstMetric imageVulnDesc ValueType.GaugeValue
        (float64 (countFn r.Report.Summary)) (ident ++ [sev]) =
        .ok ⟨imageVulnDesc, ValueType.GaugeValue, float64 (countFn r.Report.Summary),
          ident ++ [sev]⟩ := by
      simp [MustNewConstMetric, hid, imageVulnDesc, NewDesc, imageVulnLabels]
    obtain ⟨x', hx'⟩ := ih sev
      { w with metrics := w.metrics ++
        [⟨imageVulnDesc, ValueType.GaugeValue, float64 (countFn r.Report.Summary), ident ++ [sev]⟩] }
    refine ⟨x', ?_⟩
    simp only [vulnerabilitySeverityLoop, hset, hm, bind, Except.bind, hx']
    simp

theorem vulnerabilitySamples_append (rt : Runtime) (k : Nat) (a b : List VulnerabilityReport) :
    vulnerabilitySamples rt k (a ++ b) =
      vulnerabilitySamples rt k a ++ vulnerabilitySamples rt (k + a.length) b := by
  induction a generalizing k with
  | nil => simp [vulnerabilitySamples]
  | cons r a ih =>
    simp [vulnerabilitySamples, ih, Nat.add_assoc, Nat.add_comm 1]

theorem vulnerabilityReportLoop_eq (rt : Runtime) (rs : List VulnerabilityReport)
    (labelValues : List String) (w : World) (hl : labelValues.length = 7) :
    ∃ labelValues', labelValues'.length = 7 ∧
      vulnerabilityReportLoop rt rs labelValues w =
        .ok (labelValues', { w with
          metrics := w.metrics ++ vulnerabilitySamples rt w.ranges rs
          ranges := w.ranges + rs.length }) := by
  induction rs generalizing labelValues w with
  | nil => exact ⟨labelValues, hl, by simp [vulnerabilityReportLoop, vulnerabilitySamples]⟩
  | cons r rs ih =>
    obtain ⟨a, b, c, d, e, f, g, rfl⟩ := length_seven hl
    obtain ⟨x', hx'⟩ := vulnerabilitySeverityLoop_eq r
      (rangeMap imageVulnSeverities (rt.mapOrder w.ranges _)) (vulnerabilityIdentity r) g
      { w with ranges := w.ranges + 1 } rfl
    obtain ⟨lv', hlv', hlv⟩ := ih (vulnerabilityIdentity r ++ [x'])
      { w with
        metrics := w.metrics ++ (rangeMap imageVulnSeverities (rt.mapOrder w.ranges _)).map
          fun e => vulnerabilitySample r e.1 (e.2 r.Report.Summary)
        ranges := w.ranges + 1 } rfl
    refine ⟨lv', hlv', ?_⟩
    simp only [vulnerabilitySample, vulnerabilityIdentity, List.cons_append,
      List.nil_append] at hx' hlv
    have h0 : ∀ v : String, setIndex [a, b, c, d, e, f, g] 0 v = .ok [v, b, c, d, e, f, g] :=
      fun _ => rfl
    have h1 : ∀ a v : String, setIndex [a, b, c, d, e, f, g] 1 v = .ok [a, v, c, d, e, f, g] :=
      fun _ _ => rfl
    have h2 : ∀ a b v : String, setIndex [a, b, c, d, e, f, g] 2 v = .ok [a, b, v, d, e, f, g] :=
      fun _ _ _ => rfl
    have h3 : ∀ a b c v : String,
        setIndex [a, b, c, d, e, f, g] 3 v = .ok [a, b, c, v, e, f, g] :=
      fun _ _ _ _ => rfl
    have h4 : ∀ a b c d v : String,
        setIndex [a, b, c, d, e, f, g] 4 v = .ok [a, b, c, d, v, f, g] :=
      fun _ _ _ _ _ => rfl
    have h5 : ∀ a b c d e v : String,
        setIndex [a, b, c, d, e, f, g] 5 v = .ok [a, b, c, d, e, v, g] :=
      fun _ _ _ _ _ _ => rfl
    simp only [vulnerabilityReportLoop, h0, h1, h2, h3, h4, h5, bind, Except.bind, hx', hlv]
    simp [vulnerabilitySamples, vulnerabilitySample, vulnerabilityIdentity, Nat.add_assoc,
      Nat.add_comm 1]

theorem vulnerabilityNamespaceLoop_eq (c : ResourcesMetricsCollector) (rt : Runtime)
    (nss : List String) (reports : List VulnerabilityReport) (labelValues : List String)
    (w : World) (hl : labelValues.length = 7) :
    ∃ reports' labelValues',
      vulnerabilityNamespaceLoop c rt nss reports labelValues w =
        .ok (reports', labelValues',
          { metrics := w.metrics ++
              vulnerabilitySamples rt w.ranges (listed c.Client.ListVulnerabilityReports nss)
            listCalls := w.listCalls ++ nss.map fun n => (Kind.VulnerabilityReport, n)
            errorLog := w.errorLog ++ listFailures c.Client.ListVulnerabilityReports
              "failed to list vulnerabilityreports from API" nss
            ranges := w.ranges + (listed c.Client.ListVulnerabilityReports nss).length }) := by
  induction nss generalizing reports labelValues w with
  | nil =>
    exact ⟨reports, labelValues, by
      simp [vulnerabilityNamespaceLoop, listed, listFailures, vulnerabilitySamples]⟩
  | cons n rest ih =>
    cases hn : c.Client.ListVulnerabilityReports n with
    | error err =>
      obtain ⟨reports', lv', h⟩ := ih reports labelValues
        { w with
          listCalls := w.listCalls ++ [(Kind.VulnerabilityReport, n)]
          errorLog := w.errorLog ++ [⟨err, "failed to list vulnerabilityreports from API", n⟩] }
        hl
      refine ⟨reports', lv', ?_⟩
      simp only [vulnerabilityNamespaceLoop, hn, h, listed_cons_error _ _ _ _ hn,
        listFailures_cons_error _ _ _ _ _ hn]
      simp
    | ok items =>
      obtain ⟨lv1, hlv1, h1⟩ := vulnerabilityReportLoop_eq rt items labelValues
        { w with listCalls := w.listCalls ++ [(Kind.VulnerabilityReport, n)] } hl
      obtain ⟨reports', lv', h⟩ := ih items lv1
        { w with
          metrics := w.metrics ++ vulnerabilitySamples rt w.ranges items
          listCalls := w.listCalls ++ [(Kind.VulnerabilityReport, n)]
          ranges := w.ranges + items.length } hlv1
      refine ⟨reports', lv', ?_⟩
      simp only [vulnerabilityNamespaceLoop, hn, h1, bind, Except.bind, h,
        listed_cons_ok _ _ _ _ hn, listFailures_cons_ok _ _ _ _ _ hn,
        vulnerabilitySamples_append]
      simp [Nat.add_assoc]

theorem collectVulnerabilityReports_eq (c : ResourcesMetricsCollector) (rt : Runtime)
    (w : World) (nss : List String) :
    collectVulnerabilityReports c rt w nss =
      .ok { metrics := w.metrics ++
              vulnerabilitySamples rt w.ranges (listed c.Client.ListVulnerabilityReports nss)
            listCalls := w.listCalls ++ nss.map fun n => (Kind.VulnerabilityReport, n)
            errorLog := w.errorLog ++ listFailures c.Client.ListVulnerabilityReports
              "failed to list vulnerabilityreports from API" nss
            ranges := w.ranges + (listed c.Client.ListVulnerabilityReports nss).length } := by
  obtain ⟨reports', lv', h⟩ := vulnerabilityNamespaceLoop_eq c rt nss [] (List.replicate 7 "") w
    (by simp)
  simp only [collectVulnerabilityReports, h, bind, Except.bind, pure, Except.pure]

/-! ### The exposed-secret collector is its reference description -/

theorem exposedSecretSeverityLoop_eq (r : ExposedSecretReport)
    (es : List (String × (ExposedSecretSummary → Int))) (ident : List String) (x : String)
    (w : World) (hid : ident.length = 6) :
    ∃ x', exposedSecretSeverityLoop r es (ident ++ [x]) w =
      .ok (ident ++ [x'], { w with metrics := w.metrics ++ es.map fun e =>
        ⟨exposedSecretDesc, ValueType.GaugeValue, float64 (e.2 r.Report.Summary), ident ++ [e.1]⟩ }) := by
  induction es generalizing x w with
  | nil => exact ⟨x, by simp [exposedSecretSeverityLoop]⟩
  | cons e es ih =>
    obtain ⟨sev, countFn⟩ := e
    have hset : setIndex (ident ++ [x]) 6 sev = .ok (ident ++ [sev]) := by
      rw [setIndex_ok _ _ _ (by simp [hid])]
      congr 1
      rw [← hid]
      simp
    have hm : MustNewConstMetric exposedSecretDesc ValueType.GaugeValue
        (float64 (countFn r.Report.Summary)) (ident ++ [sev]) =
        .ok ⟨exposedSecretDesc, ValueType.GaugeValue, float64 (countFn r.Report.Summary),
          ident ++ [sev]⟩ := by
      simp [MustNewConstMetric, hid, exposedSecretDesc, NewDesc, exposedSecretLabels]
    obtain ⟨x', hx'⟩ := ih sev
      { w with metrics := w.metrics ++
        [⟨exposedSecretDesc, ValueType.GaugeValue, float64 (countFn r.Report.Summary), ident ++ [sev]⟩] }
    refine ⟨x', ?_⟩
    simp only [exposedSecretSeverityLoop, hset, hm, bind, Except.bind, hx']
    simp

theorem exposedSecretSamples_append (rt : Runtime) (k : Nat) (a b : List ExposedSecretReport) :
    exposedSecretSamples rt k (a ++ b) =
      exposedSecretSamples rt k a ++ exposedSecretSamples rt (k + a.length) b := by
  induction a generalizing k with
  | nil => simp [exposedSecretSamples]
  | cons r a ih =>
    simp [exposedSecretSamples, ih, Nat.add_assoc, Nat.add_comm 1]

theorem exposedSecretReportLoop_eq (rt : Runtime) (rs : List ExposedSecretReport)
    (labelValues : List String) (w : World) (hl : labelValues.length = 7) :
    ∃ labelValues', labelValues'.length = 7 ∧
      exposedSecretReportLoop rt rs labelValues w =
        .ok (labelValues', { w with
          metrics := w.metrics ++ exposedSecretSamples rt w.ranges rs
          ranges := w.ranges + rs.length }) := by
  induction rs generalizing labelValues w with
  | nil => exact ⟨labelValues, hl, by simp [exposedSecretReportLoop, exposedSecretSamples]⟩
  | cons r rs ih =>
    obtain ⟨a, b, c, d, e, f, g, rfl⟩ := length_seven hl
    obtain ⟨x', hx'⟩ := exposedSecretSeverityLoop_eq r
      (rangeMap exposedSecretSeverities (rt.mapOrder w.ranges _)) (exposedSecretIdentity r) g
      { w with ranges := w.ranges + 1 } rfl
    obtain ⟨lv', hlv', hlv⟩ := ih (exposedSecretIdentity r ++ [x'])
      { w with
        metrics := w.metrics ++ (rangeMap exposedSecretSeverities (rt.mapOrder w.ranges _)).map
          fun e => exposedSecretSample r e.1 (e.2 r.Report.Summary)
        ranges := w.ranges + 1 } rfl
    refine ⟨lv', hlv', ?_⟩
    simp only [exposedSecretSample, exposedSecretIdentity, List.cons_append,
      List.nil_append] at hx' hlv
    have h0 : ∀ v : String, setIndex [a, b, c, d, e, f, g] 0 v = .ok [v, b, c, d, e, f, g] :=
      fun _ => rfl
    have h1 : ∀ a v : String, setIndex [a, b, c, d, e, f, g] 1 v = .ok [a, v, c, d, e, f, g] :=
      fun _ _ => rfl
    have h2 : ∀ a b v : String, setIndex [a, b, c, d, e, f, g] 2 v = .ok [a, b, v, d, e, f, g] :=
      fun _ _ _ => rfl
    have h3 : ∀ a b c v : String,
        setIndex [a, b, c, d, e, f, g] 3 v = .ok [a, b, c, v, e, f, g] :=
      fun _ _ _ _ => rfl
    have h4 : ∀ a b c d v : String,
        setIndex [a, b, c, d, e, f, g] 4 v = .ok [a, b, c, d, v, f, g] :=
      fun _ _ _ _ _ => rfl
    have h5 : ∀ a b c d e v : String,
        setIndex [a, b, c, d, e, f, g] 5 v = .ok [a, b, c, d, e, v, g] :=
      fun _ _ _ _ _ _ => rfl
    simp only [exposedSecretReportLoop, h0, h1, h2, h3, h4, h5, bind, Except.bind, hx', hlv]
    simp [exposedSecretSamples, exposedSecretSample, exposedSecretIdentity, Nat.add_assoc,
      Nat.add_comm 1]

theorem exposedSecretNamespaceLoop_eq (c : ResourcesMetricsCollector) (rt : Runtime)
    (nss : List String) (reports : List ExposedSecretReport) (labelValues : List String)
    (w : World) (hl : labelValues.length = 7) :
    ∃ reports' labelValues',
      exposedSecretNamespaceLoop c rt nss reports labelValues w =
        .ok (reports', labelValues',
          { metrics := w.metrics ++
              exposedSecretSamples rt w.ranges (listed c.Client.ListExposedSecretReports nss)
            listCalls := w.listCalls ++ nss.map fun n => (Kind.ExposedSecretReport, n)
            errorLog := w.errorLog ++ listFailures c.Client.ListExposedSecretReports
              "failed to list exposedsecretreports from API" nss
            ranges := w.ranges + (listed c.Client.ListExposedSecretReports nss).length }) := by
  induction nss generalizing reports labelValues w with
  | nil =>
    exact ⟨reports, labelValues, by
      simp [exposedSecretNamespaceLoop, listed, listFailures, exposedSecretSamples]⟩
  | cons n rest ih =>
    cases hn : c.Client.ListExposedSecretReports n with
    | error err =>
      obtain ⟨reports', lv', h⟩ := ih reports labelValues
        { w with
          listCalls := w.listCalls ++ [(Kind.ExposedSecretReport, n)]
          errorLog := w.errorLog ++ [⟨err, "failed to list exposedsecretreports from API", n⟩] }
        hl
      refine ⟨reports', lv', ?_⟩
      simp only [exposedSecretNamespaceLoop, hn, h, listed_cons_error _ _ _ _ hn,
        listFailures_cons_error _ _ _ _ _ hn]
      simp
    | ok items =>
      obtain ⟨lv1, hlv1, h1⟩ := exposedSecretReportLoop_eq rt items labelValues
        { w with listCalls := w.listCalls ++ [(Kind.ExposedSecretReport, n)] } hl
      obtain ⟨reports', lv', h⟩ := ih items lv1
        { w with
          metrics := w.metrics ++ exposedSecretSamples rt w.ranges items
          listCalls := w.listCalls ++ [(Kind.ExposedSecretReport, n)]
          ranges := w.ranges + items.length } hlv1
      refine ⟨reports', lv', ?_⟩
      simp only [exposedSecretNamespaceLoop, hn, h1, bind, Except.bind, h,
        listed_cons_ok _ _ _ _ hn, listFailures_cons_ok _ _ _ _ _ hn,
        exposedSecretSamples_append]
      simp [Nat.add_assoc]

theorem collectExposedSecretsReports_eq (c : ResourcesMetricsCollector) (rt : Runtime)
    (w : World) (nss : List String) :
    collectExposedSecretsReports c rt w nss =
      .ok { metrics := w.metrics ++
              exposedSecretSamples rt w.ranges (listed c.Client.ListExposedSecretReports nss)
            listCalls := w.listCalls ++ nss.map fun n => (Kind.ExposedSecretReport, n)
            errorLog := w.errorLog ++ listFailures c.Client.ListExposedSecretReports
              "failed to list exposedsecretreports from API" nss
            ranges := w.ranges + (listed c.Client.ListExposedSecretReports nss).length } := by
  obtain ⟨reports', lv', h⟩ := exposedSecretNamespaceLoop_eq c rt nss [] (List.replicate 7 "") w
    (by simp)
  simp only [collectExposedSecretsReports, h, bind, Except.bind, pure, Except.pure]

/-! ### The config-audit collector is its reference description -/

theorem configAuditSeverityLoop_eq (r : ConfigAuditReport)
    (es : List (String × (ConfigAuditSummary → Int))) (ident : List String) (x : String)
    (w : World) (hid : ident.length = 2) :
    ∃ x', configAuditSeverityLoop r es (ident ++ [x]) w =
      .ok (ident ++ [x'], { w with metrics := w.metrics ++ es.map fun e =>
        ⟨configAuditDesc, ValueType.GaugeValue, float64 (e.2 r.Report.Summary), ident ++ [e.1]⟩ }) := by
  induction es generalizing x w with
  | nil => exact ⟨x, by simp [configAuditSeverityLoop]⟩
  | cons e es ih =>
    obtain ⟨sev, countFn⟩ := e
    have hset : setIndex (ident ++ [x]) 2 sev = .ok (ident ++ [sev]) := by
      rw [setIndex_ok _ _ _ (by simp [hid])]
      congr 1
      rw [← hid]
      simp
    have hm : MustNewConstMetric configAuditDesc ValueType.GaugeValue
        (float64 (countFn r.Report.Summary)) (ident ++ [sev]) =
        .ok ⟨configAuditDesc, ValueType.GaugeValue, float64 (countFn r.Report.Summary),
          ident ++ [sev]⟩ := by
      simp [MustNewConstMetric, hid, configAuditDesc, NewDesc, configAuditLabels]
    obtain ⟨x', hx'⟩ := ih sev
      { w with metrics := w.metrics ++
        [⟨configAuditDesc, ValueType.GaugeValue, float64 (countFn r.Report.Summary), ident ++ [sev]⟩] }
    refine ⟨x', ?_⟩
    simp only [configAuditSeverityLoop, hset, hm, bind, Except.bind, hx']
    simp

theorem configAuditSamples_append (rt : Runtime) (k : Nat) (a b : List ConfigAuditReport) :
    configAuditSamples rt k (a ++ b) =
      configAuditSamples rt k a ++ configAuditSamples rt (k + a.length) b := by
  induction a generalizing k with
  | nil => simp [configAuditSamples]
  | cons r a ih =>
    simp [configAuditSamples, ih, Nat.add_assoc, Nat.add_comm 1]

theorem configAuditReportLoop_eq (rt : Runtime) (rs : List ConfigAuditReport)
    (labelValues : List String) (w : World) (hl : labelValues.length = 3) :
    ∃ labelValues', labelValues'.length = 3 ∧
      configAuditReportLoop rt rs labelValues w =
        .ok (labelValues', { w with
          metrics := w.metrics ++ configAuditSamples rt w.ranges rs
          ranges := w.ranges + rs.length }) := by
  induction rs generalizing labelValues w with
  | nil => exact ⟨labelValues, hl, by simp [configAuditReportLoop, configAuditSamples]⟩
  | cons r rs ih =>
    obtain ⟨a, b, g, rfl⟩ := length_three hl
    obtain ⟨x', hx'⟩ := configAuditSeverityLoop_eq r
      (rangeMap configAuditSeverities (rt.mapOrder w.ranges _)) (configAuditIdentity r) g
      { w with ranges := w.ranges + 1 } rfl
    obtain ⟨lv', hlv', hlv⟩ := ih (configAuditIdentity r ++ [x'])
      { w with
        metrics := w.metrics ++ (rangeMap configAuditSeverities (rt.mapOrder w.ranges _)).map
          fun e => configAuditSample r e.1 (e.2 r.Report.Summary)
        ranges := w.ranges + 1 } rfl
    refine ⟨lv', hlv', ?_⟩
    simp only [configAuditSample, configAuditIdentity, List.cons_append,
      List.nil_append] at hx' hlv
    have h0 : ∀ v : String, setIndex [a, b, g] 0 v = .ok [v, b, g] := fun _ => rfl
    have h1 : ∀ a v : String, setIndex [a, b, g] 1 v = .ok [a, v, g] := fun _ _ => rfl
    simp only [configAuditReportLoop, h0, h1, bind, Except.bind, hx', hlv]
    simp [configAuditSamples, configAuditSample, configAuditIdentity, Nat.add_assoc,
      Nat.add_comm 1]

theorem configAuditNamespaceLoop_eq (c : ResourcesMetricsCollector) (rt : Runtime)
    (nss : List String) (reports : List ConfigAuditReport) (labelValues : List String)
    (w : World) (hl : labelValues.length = 3) :
    ∃ reports' labelValues',
      configAuditNamespaceLoop c rt nss reports labelValues w =
        .ok (reports', labelValues',
          { metrics := w.metrics ++
              configAuditSamples rt w.ranges (listed c.Client.ListConfigAuditReports nss)
            listCalls := w.listCalls ++ nss.map fun n => (Kind.ConfigAuditReport, n)
            errorLog := w.errorLog ++ listFailures c.Client.ListConfigAuditReports
              "failed to list configauditreports from API" nss
            ranges := w.ranges + (listed c.Client.ListConfigAuditReports nss).length }) := by
  induction nss generalizing reports labelValues w with
  | nil =>
    exact ⟨reports, labelValues, by
      simp [configAuditNamespaceLoop, listed, listFailures, configAuditSamples]⟩
  | cons n rest ih =>
    cases hn : c.Client.ListConfigAuditReports n with
    | error err =>
      obtain ⟨reports', lv', h⟩ := ih reports labelValues
        { w with
          listCalls := w.listCalls ++ [(Kind.ConfigAuditReport, n)]
          errorLog := w.errorLog ++ [⟨err, "failed to list configauditreports from API", n⟩] }
        hl
      refine ⟨reports', lv', ?_⟩
      simp only [configAuditNamespaceLoop, hn, h, listed_cons_error _ _ _ _ hn,
        listFailures_cons_error _ _ _ _ _ hn]
      simp
    | ok items =>
      obtain ⟨lv1, hlv1, h1⟩ := configAuditReportLoop_eq rt items labelValues
        { w with listCalls := w.listCalls ++ [(Kind.ConfigAuditReport, n)] } hl
      obtain ⟨reports', lv', h⟩ := ih items lv1
        { w with
          metrics := w.metrics ++ configAuditSamples rt w.ranges items
          listCalls := w.listCalls ++ [(Kind.ConfigAuditReport, n)]
          ranges := w.ranges + items.length } hlv1
      refine ⟨reports', lv', ?_⟩
      simp only [configAuditNamespaceLoop, hn, h1, bind, Except.bind, h,
        listed_cons_ok _ _ _ _ hn, listFailures_cons_ok _ _ _ _ _ hn,
        configAuditSamples_append]
      simp [Nat.add_assoc]

theorem collectConfigAuditReports_eq (c : ResourcesMetricsCollector) (rt : Runtime)
    (w : World) (nss : List String) :
    collectConfigAuditReports c rt w nss =
      .ok { metrics := w.metrics ++
              configAuditSamples rt w.ranges (listed c.Client.ListConfigAuditReports nss)
            listCalls := w.listCalls ++ nss.map fun n => (Kind.ConfigAuditReport, n)
            errorLog := w.errorLog ++ listFailures c.Client.ListConfigAuditReports
              "failed to list configauditreports from API" nss
            ranges := w.ranges + (listed c.Client.ListConfigAuditReports nss).length } := by
  obtain ⟨reports', lv', h⟩ := configAuditNamespaceLoop_eq c rt nss [] (List.replicate 3 "") w
    (by simp)
  simp only [collectConfigAuditReports, h, bind, Except.bind, pure, Except.pure]

end metrics

/-! ### `RbacAssessmentSummaryFromChecks` counts failed checks by severity -/

namespace v1alpha1

theorem SeverityLevels.ne (lv : SeverityLevels) :
    lv.SeverityCritical ≠ lv.SeverityHigh ∧ lv.SeverityCritical ≠ lv.SeverityMedium ∧
    lv.SeverityCritical ≠ lv.SeverityLow ∧ lv.SeverityHigh ≠ lv.SeverityMedium ∧
    lv.SeverityHigh ≠ lv.SeverityLow ∧ lv.SeverityMedium ≠ lv.SeverityLow := by
  have h := lv.distinct
  simp only [List.nodup_cons, List.mem_cons, List.mem_singleton, not_or, List.not_mem_nil,
    not_false_eq_true, List.nodup_nil, and_true] at h
  tauto

/-- The loop started from any summary adds, to each field, the number of failed checks of
that field's level. -/
theorem foldl_summaryStep (lv : SeverityLevels) (checks : List Check)
    (init : RbacAssessmentSummary) :
    checks.foldl (summaryStep lv) init =
      { CriticalCount := init.CriticalCount + checks.countP (failsAt lv.SeverityCritical)
        HighCount := init.HighCount + checks.countP (failsAt lv.SeverityHigh)
        MediumCount := init.MediumCount + checks.countP (failsAt lv.SeverityMedium)
        LowCount := init.LowCount + checks.countP (failsAt lv.SeverityLow) } := by
  obtain ⟨h1, h2, h3, h4, h5, h6⟩ := lv.ne
  induction checks generalizing init with
  | nil => simp
  | cons c cs ih =>
    rw [List.foldl_cons, ih]
    obtain ⟨sev, ok⟩ := c
    simp only [List.countP_cons, failsAt, summaryStep]
    cases ok
    · by_cases e1 : sev = lv.SeverityCritical
      · subst e1
        simp [h1, h2, h3, add_assoc]
        omega
      · by_cases e2 : sev = lv.SeverityHigh
        · subst e2
          simp [h1.symm, h4, h5, add_assoc]
          omega
        · by_cases e3 : sev = lv.SeverityMedium
          · subst e3
            simp [h2.symm, h4.symm, h6, add_assoc]
            omega
          · by_cases e4 : sev = lv.SeverityLow
            · subst e4
              simp [h3.symm, h5.symm, h6.symm, add_assoc]
              omega
            · simp [e1, e2, e3, e4]
    · simp

/-- The machine increment never wraps in the loop: on a slice of fewer than `2^63` checks
(every Go slice is one) the loop over 64-bit integers computes the same summary as the
loop over unbounded integers. -/
theorem foldl_summaryStep64 (lv : SeverityLevels) (checks : List Check)
    (init : RbacAssessmentSummary)
    (h0 : 0 ≤ init.CriticalCount ∧ 0 ≤ init.HighCount ∧ 0 ≤ init.MediumCount ∧
      0 ≤ init.LowCount)
    (hb : init.CriticalCount + checks.length < 9223372036854775808 ∧
      init.HighCount + checks.length < 9223372036854775808 ∧
      init.MediumCount + checks.length < 9223372036854775808 ∧
      init.LowCount + checks.length < 9223372036854775808) :
    checks.foldl (summaryStep64 lv) init = checks.foldl (summaryStep lv) init := by
  induction checks generalizing init with
  | nil => rfl
  | cons c cs ih =>
    obtain ⟨a0, b0, c0, d0⟩ := h0
    obtain ⟨a1, b1, c1, d1⟩ := hb
    simp only [List.length_cons, Nat.cast_add, Nat.cast_one] at a1 b1 c1 d1
    have hw : ∀ x : Int, 0 ≤ x → x + 1 < 9223372036854775808 → wrapInt64 (x + 1) = x + 1 := by
      intro x hx hx'
      unfold wrapInt64
      omega
    have hstep : summaryStep64 lv init c = summaryStep lv init c := by
      unfold summaryStep64 summaryStep
      rw [hw _ a0 (by omega), hw _ b0 (by omega), hw _ c0 (by omega), hw _ d0 (by omega)]
    rw [List.foldl_cons, List.foldl_cons, hstep]
    apply ih
    · unfold summaryStep
      split_ifs <;> refine ⟨?_, ?_, ?_, ?_⟩ <;> first | omega | (simp only; omega)
    · unfold summaryStep
      split_ifs <;> refine ⟨?_, ?_, ?_, ?_⟩ <;> first | omega | (simp only; omega)

theorem machine_summary_eq (lv : SeverityLevels) (checks : List Check)
    (h : checks.length < 9223372036854775808) :
    checks.foldl (summaryStep64 lv) {} = RbacAssessmentSummaryFromChecks lv checks := by
  have hl : (checks.length : Int) < 9223372036854775808 := by exact_mod_cast h
  exact foldl_summaryStep64 lv checks {} ⟨le_refl _, le_refl _, le_refl _, le_refl _⟩
    ⟨by simpa using hl, by simpa using hl, by simpa using hl, by simpa using hl⟩

theorem summary_fields (lv : SeverityLevels) (checks : List Check) :
    RbacAssessmentSummaryFromChecks lv checks =
      { CriticalCount := checks.countP (failsAt lv.SeverityCritical)
        HighCount := checks.countP (failsAt lv.SeverityHigh)
        MediumCount := checks.countP (failsAt lv.SeverityMedium)
        LowCount := checks.countP (failsAt lv.SeverityLow) } := by
  simp [RbacAssessmentSummaryFromChecks, foldl_summaryStep]

/-- A failed check whose severity is one of the four levels counts in exactly one of the
four classes; any other check counts in none. -/
theorem failsAt_sum (lv : SeverityLevels) (c : Check) :
    (if failsAt lv.SeverityCritical c then 1 else 0) + (if failsAt lv.SeverityHigh c then 1 else 0) +
      (if failsAt lv.SeverityMedium c then 1 else 0) + (if failsAt lv.SeverityLow c then 1 else 0) =
    if (!c.Success && recognized lv c.Severity) then 1 else 0 := by
  obtain ⟨h1, h2, h3, h4, h5, h6⟩ := lv.ne
  obtain ⟨sev, ok⟩ := c
  cases ok
  · by_cases e1 : sev = lv.SeverityCritical
    · subst e1
      simp [failsAt, recognized, h1, h2, h3]
    · by_cases e2 : sev = lv.SeverityHigh
      · subst e2
        simp [failsAt, recognized, h1.symm, h4, h5]
      · by_cases e3 : sev = lv.SeverityMedium
        · subst e3
          simp [failsAt, recognized, h2.symm, h4.symm, h6]
        · by_cases e4 : sev = lv.SeverityLow
          · subst e4
            simp [failsAt, recognized, h3.symm, h5.symm, h6.symm]
          · simp [failsAt, recognized, e1, e2, e3, e4]
  · simp [failsAt]

theorem countP_failsAt_sum (lv : SeverityLevels) (checks : List Check) :
    checks.countP (failsAt lv.SeverityCritical) + checks.countP (failsAt lv.SeverityHigh) +
      checks.countP (failsAt lv.SeverityMedium) + checks.countP (failsAt lv.SeverityLow) =
    checks.countP (fun c => !c.Success && recognized lv c.Severity) := by
  induction checks with
  | nil => simp
  | cons c cs ih =>
    have h := failsAt_sum lv c
    simp only [List.countP_cons]
    omega

theorem total_eq (lv : SeverityLevels) (checks : List Check) :
    (RbacAssessmentSummaryFromChecks lv checks).total =
      checks.countP (fun c => !c.Success && recognized lv c.Severity) := by
  rw [summary_fields, ← countP_failsAt_sum]
  simp [RbacAssessmentSummary.total]

theorem countP_recognized_le (lv : SeverityLevels) (checks : List Check) :
    checks.countP (fun c => !c.Success && recognized lv c.Severity) ≤
      checks.countP (fun c => !c.Success) := by
  apply List.countP_mono_left
  intro c _ h
  simp only [Bool.and_eq_true] at h
  exact h.1

/-- C2: each field of `RbacAssessmentSummaryFromChecks checks` is the number of checks with
`Success == false` whose severity is exactly the level of that field, and a check that
succeeded, or whose severity is none of the four levels, changes no field wherever it
stands in the sequence. -/
theorem summary_counts_failed_checks_by_level (lv : SeverityLevels) (checks : List Check) :
    (RbacAssessmentSummaryFromChecks lv checks).CriticalCount =
        checks.countP (fun c => !c.Success && decide (c.Severity = lv.SeverityCritical)) ∧
    (RbacAssessmentSummaryFromChecks lv checks).HighCount =
        checks.countP (fun c => !c.Success && decide (c.Severity = lv.SeverityHigh)) ∧
    (RbacAssessmentSummaryFromChecks lv checks).MediumCount =
        checks.countP (fun c => !c.Success && decide (c.Severity = lv.SeverityMedium)) ∧
    (RbacAssessmentSummaryFromChecks lv checks).LowCount =
        checks.countP (fun c => !c.Success && decide (c.Severity = lv.SeverityLow)) ∧
    ∀ check : Check,
      (check.Success = true ∨
        (check.Severity ≠ lv.SeverityCritical ∧ check.Severity ≠ lv.SeverityHigh ∧
          check.Severity ≠ lv.SeverityMedium ∧ check.Severity ≠ lv.SeverityLow)) →
      ∀ pre post : List Check,
        RbacAssessmentSummaryFromChecks lv (pre ++ check :: post) =
          RbacAssessmentSummaryFromChecks lv (pre ++ post) := by
  refine ⟨?_, ?_, ?_, ?_, ?_⟩
  · rw [summary_fields]; rfl
  · rw [summary_fields]; rfl
  · rw [summary_fields]; rfl
  · rw [summary_fields]; rfl
  · intro check h pre post
    have hz : ∀ level, level = lv.SeverityCritical ∨ level = lv.SeverityHigh ∨
        level = lv.SeverityMedium ∨ level = lv.SeverityLow → failsAt level check = false := by
      intro level hlevel
      rcases h with h | ⟨a, b, c, d⟩
      · simp [failsAt, h]
      · rcases hlevel with e | e | e | e <;> subst e <;> simp [failsAt, a, b, c, d]
    simp [summary_fields, List.countP_cons, hz]

/-- The counts on a sequence with a failed critical check, a failed check of severity
`UNKNOWN` and a successful low check; removing the `UNKNOWN` check changes nothing. -/
theorem summary_counts_failed_checks_by_level_witness :
    (RbacAssessmentSummaryFromChecks upperCaseLevels
        [⟨"CRITICAL", false⟩, ⟨"UNKNOWN", false⟩, ⟨"LOW", true⟩]).CriticalCount = 1 ∧
    RbacAssessmentSummaryFromChecks upperCaseLevels
        ([⟨"CRITICAL", false⟩] ++ ⟨"UNKNOWN", false⟩ :: [⟨"LOW", true⟩]) =
      RbacAssessmentSummaryFromChecks upperCaseLevels ([⟨"CRITICAL", false⟩] ++ [⟨"LOW", true⟩]) :=
  ⟨(summary_counts_failed_checks_by_level upperCaseLevels
      [⟨"CRITICAL", false⟩, ⟨"UNKNOWN", false⟩, ⟨"LOW", true⟩]).1.trans (by decide),
   (summary_counts_failed_checks_by_level upperCaseLevels []).2.2.2.2 ⟨"UNKNOWN", false⟩
      (Or.inr (by decide)) [⟨"CRITICAL", false⟩] [⟨"LOW", true⟩]⟩

/-- C3, as stated, fails: one failed check of severity `UNKNOWN` is a sequence in which
every check is a failure, yet the four fields sum to `0`, which is neither the number of
failed checks nor the length of the sequence. -/
theorem sum_of_fields_counterexample :
    (RbacAssessmentSummaryFromChecks upperCaseLevels [⟨"UNKNOWN", false⟩]).CriticalCount +
      (RbacAssessmentSummaryFromChecks upperCaseLevels [⟨"UNKNOWN", false⟩]).HighCount +
      (RbacAssessmentSummaryFromChecks upperCaseLevels [⟨"UNKNOWN", false⟩]).MediumCount +
      (RbacAssessmentSummaryFromChecks upperCaseLevels [⟨"UNKNOWN", false⟩]).LowCount = 0 ∧
    (([⟨"UNKNOWN", false⟩] : List Check).countP (fun c => !c.Success) : Int) = 1 ∧
    (([⟨"UNKNOWN", false⟩] : List Check).length : Int) = 1 ∧
    (∀ c ∈ ([⟨"UNKNOWN", false⟩] : List Check), c.Success = false) := by
  decide

/-- C3, amended: the four fields sum to the number of failed checks whose severity is one
of the four levels of the switch; this is at most the number of failed checks, and it is
the length of the sequence when every check is a failure of one of the four levels. -/
theorem sum_of_fields_counts_recognized_failures (lv : SeverityLevels) (checks : List Check) :
    (RbacAssessmentSummaryFromChecks lv checks).CriticalCount +
        (RbacAssessmentSummaryFromChecks lv checks).HighCount +
        (RbacAssessmentSummaryFromChecks lv checks).MediumCount +
        (RbacAssessmentSummaryFromChecks lv checks).LowCount =
      checks.countP (fun c => !c.Success &&
        (decide (c.Severity = lv.SeverityCritical) || decide (c.Severity = lv.SeverityHigh) ||
          decide (c.Severity = lv.SeverityMedium) || decide (c.Severity = lv.SeverityLow))) ∧
    checks.countP (fun c => !c.Success &&
        (decide (c.Severity = lv.SeverityCritical) || decide (c.Severity = lv.SeverityHigh) ||
          decide (c.Severity = lv.SeverityMedium) || decide (c.Severity = lv.SeverityLow))) ≤
      checks.countP (fun c => !c.Success) ∧
    ((∀ c ∈ checks, c.Success = false ∧
        (c.Severity = lv.SeverityCritical ∨ c.Severity = lv.SeverityHigh ∨
          c.Severity = lv.SeverityMedium ∨ c.Severity = lv.SeverityLow)) →
      (RbacAssessmentSummaryFromChecks lv checks).CriticalCount +
        (RbacAssessmentSummaryFromChecks lv checks).HighCount +
        (RbacAssessmentSummaryFromChecks lv checks).MediumCount +
        (RbacAssessmentSummaryFromChecks lv checks).LowCount = checks.length) := by
  have ht := total_eq lv checks
  simp only [RbacAssessmentSummary.total, recognized] at ht
  refine ⟨ht, countP_recognized_le lv checks, ?_⟩
  intro hall
  rw [ht]
  congr 1
  rw [List.countP_eq_length]
  intro c hc
  obtain ⟨hs, hsev⟩ := hall c hc
  simp only [hs, Bool.not_false, Bool.true_and, Bool.or_eq_true, decide_eq_true_eq]
  tauto

/-- Two failed checks of levels High and Low: the fields sum to the length `2`. -/
theorem sum_of_fields_counts_recognized_failures_witness :
    (RbacAssessmentSummaryFromChecks upperCaseLevels
          [⟨"HIGH", false⟩, ⟨"LOW", false⟩]).CriticalCount +
        (RbacAssessmentSummaryFromChecks upperCaseLevels
          [⟨"HIGH", false⟩, ⟨"LOW", false⟩]).HighCount +
        (RbacAssessmentSummaryFromChecks upperCaseLevels
          [⟨"HIGH", false⟩, ⟨"LOW", false⟩]).MediumCount +
        (RbacAssessmentSummaryFromChecks upperCaseLevels
          [⟨"HIGH", false⟩, ⟨"LOW", false⟩]).LowCount =
      ([⟨"HIGH", false⟩, ⟨"LOW", false⟩] : List Check).length :=
  (sum_of_fields_counts_recognized_failures upperCaseLevels
    [⟨"HIGH", false⟩, ⟨"LOW", false⟩]).2.2 (by decide)

/-- C9: for every sequence of checks the four fields of
`RbacAssessmentSummaryFromChecks checks` sum to at most `len(checks)`, every field is
non-negative, and the summary of the empty sequence has every field zero. -/
theorem sum_of_fields_le_length (lv : SeverityLevels) (checks : List Check) :
    (RbacAssessmentSummaryFromChecks lv checks).CriticalCount +
        (RbacAssessmentSummaryFromChecks lv checks).HighCount +
        (RbacAssessmentSummaryFromChecks lv checks).MediumCount +
        (RbacAssessmentSummaryFromChecks lv checks).LowCount ≤ checks.length ∧
    0 ≤ (RbacAssessmentSummaryFromChecks lv checks).CriticalCount ∧
    0 ≤ (RbacAssessmentSummaryFromChecks lv checks).HighCount ∧
    0 ≤ (RbacAssessmentSummaryFromChecks lv checks).MediumCount ∧
    0 ≤ (RbacAssessmentSummaryFromChecks lv checks).LowCount ∧
    RbacAssessmentSummaryFromChecks lv [] =
      { CriticalCount := 0, HighCount := 0, MediumCount := 0, LowCount := 0 } := by
  have ht := total_eq lv checks
  have hle : checks.countP (fun c => !c.Success && recognized lv c.Severity) ≤ checks.length :=
    List.countP_le_length _
  simp only [RbacAssessmentSummary.total] at ht
  refine ⟨by omega, ?_, ?_, ?_, ?_, rfl⟩ <;> simp [summary_fields]

/-- C10: `RbacAssessmentSummaryFromChecks` is additive over concatenation, field by field,
and therefore gives the same summary for any reordering of the checks. -/
theorem summary_additive_and_order_independent (lv : SeverityLevels) (a b : List Check) :
    (RbacAssessmentSummaryFromChecks lv (a ++ b)).CriticalCount =
        (RbacAssessmentSummaryFromChecks lv a).CriticalCount +
          (RbacAssessmentSummaryFromChecks lv b).CriticalCount ∧
    (RbacAssessmentSummaryFromChecks lv (a ++ b)).HighCount =
        (RbacAssessmentSummaryFromChecks lv a).HighCount +
          (RbacAssessmentSummaryFromChecks lv b).HighCount ∧
    (RbacAssessmentSummaryFromChecks lv (a ++ b)).MediumCount =
        (RbacAssessmentSummaryFromChecks lv a).MediumCount +
          (RbacAssessmentSummaryFromChecks lv b).MediumCount ∧
    (RbacAssessmentSummaryFromChecks lv (a ++ b)).LowCount =
        (RbacAssessmentSummaryFromChecks lv a).LowCount +
          (RbacAssessmentSummaryFromChecks lv b).LowCount ∧
    (∀ a' : List Check, a.Perm a' →
      RbacAssessmentSummaryFromChecks lv a = RbacAssessmentSummaryFromChecks lv a') := by
  refine ⟨?_, ?_, ?_, ?_, ?_⟩
  · simp [summary_fields, List.countP_append]
  · simp [summary_fields, List.countP_append]
  · simp [summary_fields, List.countP_append]
  · simp [summary_fields, List.countP_append]
  · intro a' h
    simp [summary_fields, h.countP_eq]

/-- A sequence of three checks and its reversal have the same summary. -/
theorem summary_additive_and_order_independent_witness :
    RbacAssessmentSummaryFromChecks upperCaseLevels
        [⟨"CRITICAL", false⟩, ⟨"LOW", false⟩, ⟨"HIGH", true⟩] =
      RbacAssessmentSummaryFromChecks upperCaseLevels
        [⟨"HIGH", true⟩, ⟨"LOW", false⟩, ⟨"CRITICAL", false⟩] :=
  (summary_additive_and_order_independent upperCaseLevels
    [⟨"CRITICAL", false⟩, ⟨"LOW", false⟩, ⟨"HIGH", true⟩] []).2.2.2.2 _
    (by decide)

end v1alpha1

/-! ### A pass is its reference description -/

namespace metrics
open v1alpha1 prometheus

theorem rangeMap_perm {α : Type} (entries : List α) (σ : Equiv.Perm (Fin entries.length)) :
    (rangeMap entries σ).Perm entries := by
  have h := Equiv.Perm.ofFn_comp_perm σ entries.get
  rw [List.ofFn_get] at h
  exact h

theorem vulnerabilitySamples_blocks (rt : Runtime) (k : Nat) (rs : List VulnerabilityReport) :
    ∃ blocks : List (List Metric), vulnerabilitySamples rt k rs = blocks.flatten ∧
      List.Forall₂ (fun r b => b.Perm (vulnerabilityBuckets r)) rs blocks := by
  induction rs generalizing k with
  | nil => exact ⟨[], rfl, List.Forall₂.nil⟩
  | cons r rs ih =>
    obtain ⟨blocks, hb, hf⟩ := ih (k + 1)
    refine ⟨((rangeMap imageVulnSeverities (rt.mapOrder k _)).map
      fun e => vulnerabilitySample r e.1 (e.2 r.Report.Summary)) :: blocks, ?_, List.Forall₂.cons ?_ hf⟩
    · simp only [vulnerabilitySamples, List.flatten_cons, hb]
    · exact (rangeMap_perm imageVulnSeverities _).map _

theorem exposedSecretSamples_blocks (rt : Runtime) (k : Nat) (rs : List ExposedSecretReport) :
    ∃ blocks : List (List Metric), exposedSecretSamples rt k rs = blocks.flatten ∧
      List.Forall₂ (fun r b => b.Perm (exposedSecretBuckets r)) rs blocks := by
  induction rs generalizing k with
  | nil => exact ⟨[], rfl, List.Forall₂.nil⟩
  | cons r rs ih =>
    obtain ⟨blocks, hb, hf⟩ := ih (k + 1)
    refine ⟨((rangeMap exposedSecretSeverities (rt.mapOrder k _)).map
      fun e => exposedSecretSample r e.1 (e.2 r.Report.Summary)) :: blocks, ?_, List.Forall₂.cons ?_ hf⟩
    · simp only [exposedSecretSamples, List.flatten_cons, hb]
    · exact (rangeMap_perm exposedSecretSeverities _).map _

theorem configAuditSamples_blocks (rt : Runtime) (k : Nat) (rs : List ConfigAuditReport) :
    ∃ blocks : List (List Metric), configAuditSamples rt k rs = blocks.flatten ∧
      List.Forall₂ (fun r b => b.Perm (configAuditBuckets r)) rs blocks := by
  induction rs generalizing k with
  | nil => exact ⟨[], rfl, List.Forall₂.nil⟩
  | cons r rs ih =>
    obtain ⟨blocks, hb, hf⟩ := ih (k + 1)
    refine ⟨((rangeMap configAuditSeverities (rt.mapOrder k _)).map
      fun e => configAuditSample r e.1 (e.2 r.Report.Summary)) :: blocks, ?_, List.Forall₂.cons ?_ hf⟩
    · simp only [configAuditSamples, List.flatten_cons, hb]
    · exact (rangeMap_perm configAuditSeverities _).map _

/-- The pass never panics, and what it emits, calls and logs is given by the reference
description over the resolved namespaces. -/
theorem Collect_eq (c : ResourcesMetricsCollector) (rt : Runtime) (w : World) :
    Collect c rt w =
      .ok { metrics := w.metrics ++
              vulnerabilitySamples rt w.ranges
                (listed c.Client.ListVulnerabilityReports (resolvedNamespaces c)) ++
              exposedSecretSamples rt
                (w.ranges + (listed c.Client.ListVulnerabilityReports (resolvedNamespaces c)).length)
                (listed c.Client.ListExposedSecretReports (resolvedNamespaces c)) ++
              configAuditSamples rt
                (w.ranges + (listed c.Client.ListVulnerabilityReports (resolvedNamespaces c)).length
                  + (listed c.Client.ListExposedSecretReports (resolvedNamespaces c)).length)
                (listed c.Client.ListConfigAuditReports (resolvedNamespaces c))
            listCalls := w.listCalls ++
              ((resolvedNamespaces c).map fun n => (Kind.VulnerabilityReport, n)) ++
              ((resolvedNamespaces c).map fun n => (Kind.ExposedSecretReport, n)) ++
              ((resolvedNamespaces c).map fun n => (Kind.ConfigAuditReport, n))
            errorLog := w.errorLog ++
              listFailures c.Client.ListVulnerabilityReports
                "failed to list vulnerabilityreports from API" (resolvedNamespaces c) ++
              listFailures c.Client.ListExposedSecretReports
                "failed to list exposedsecretreports from API" (resolvedNamespaces c) ++
              listFailures c.Client.ListConfigAuditReports
                "failed to list configauditreports from API" (resolvedNamespaces c)
            ranges := w.ranges +
              (listed c.Client.ListVulnerabilityReports (resolvedNamespaces c)).length +
              (listed c.Client.ListExposedSecretReports (resolvedNamespaces c)).length +
              (listed c.Client.ListConfigAuditReports (resolvedNamespaces c)).length } := by
  have hns : (if c.Config.GetTargetNamespaces.length = 0 then c.Config.GetTargetNamespaces ++ [""]
      else c.Config.GetTargetNamespaces) = resolvedNamespaces c := by
    unfold resolvedNamespaces
    by_cases h : c.Config.GetTargetNamespaces = []
    · simp [h]
    · simp [h]
  simp only [Collect, hns, collectVulnerabilityReports_eq, collectExposedSecretsReports_eq,
    collectConfigAuditReports_eq, bind, Except.bind]

theorem vulnerabilitySamples_desc (rt : Runtime) (k : Nat) (rs : List VulnerabilityReport) :
    ∀ m ∈ vulnerabilitySamples rt k rs, m.desc = imageVulnDesc := by
  induction rs generalizing k with
  | nil => simp [vulnerabilitySamples]
  | cons r rs ih =>
    intro m hm
    simp only [vulnerabilitySamples, List.mem_append, List.mem_map] at hm
    rcases hm with ⟨e, _, rfl⟩ | hm
    · rfl
    · exact ih _ m hm

theorem exposedSecretSamples_desc (rt : Runtime) (k : Nat) (rs : List ExposedSecretReport) :
    ∀ m ∈ exposedSecretSamples rt k rs, m.desc = exposedSecretDesc := by
  induction rs generalizing k with
  | nil => simp [exposedSecretSamples]
  | cons r rs ih =>
    intro m hm
    simp only [exposedSecretSamples, List.mem_append, List.mem_map] at hm
    rcases hm with ⟨e, _, rfl⟩ | hm
    · rfl
    · exact ih _ m hm

theorem configAuditSamples_desc (rt : Runtime) (k : Nat) (rs : List ConfigAuditReport) :
    ∀ m ∈ configAuditSamples rt k rs, m.desc = configAuditDesc := by
  induction rs generalizing k with
  | nil => simp [configAuditSamples]
  | cons r rs ih =>
    intro m hm
    simp only [configAuditSamples, List.mem_append, List.mem_map] at hm
    rcases hm with ⟨e, _, rfl⟩ | hm
    · rfl
    · exact ih _ m hm

theorem listed_emptyOnFailure {ρ : Type} (list : String → Except String (List ρ))
    (nss : List String) : listed (emptyOnFailure list) nss = listed list nss := by
  induction nss with
  | nil => rfl
  | cons n rest ih =>
    cases h : list n with
    | error err =>
      have h' : emptyOnFailure list n = .ok [] := by simp [emptyOnFailure, h]
      rw [listed_cons_ok _ _ _ _ h', listed_cons_error _ _ _ _ h, ih]
      rfl
    | ok items =>
      have h' : emptyOnFailure list n = .ok items := by simp [emptyOnFailure, h]
      rw [listed_cons_ok _ _ _ _ h', listed_cons_ok _ _ _ _ h, ih]

/-! ### The claims about a collection pass -/

/-- C1: a pass never fails, and for every report that a successful listing returns, of
whichever of the three kinds collected, it emits one gauge per severity bucket of the kind
of the report, whose value is the conversion of the summary field of that bucket, whatever
the counts are.  The samples of the pass are, report by report in listing order, a block
of exactly 5 samples for a vulnerability report (Critical, High, Medium, Low, Unknown, in
the order the map range chose), then a block of exactly 4 for an exposed-secret report
(Critical, High, Medium, Low), then a block of exactly 4 for a config-audit report
(Critical, High, Medium, Low); nothing else is emitted. -/
theorem pass_emits_one_sample_per_bucket (c : ResourcesMetricsCollector) (rt : Runtime)
    (w : World) :
    ∃ w', Collect c rt w = .ok w' ∧
      ∃ (vuln secrets audits : List (List Metric)),
        w'.metrics = w.metrics ++ vuln.flatten ++ secrets.flatten ++ audits.flatten ∧
        (∀ m ∈ secrets.flatten, m.desc = exposedSecretDesc) ∧
        List.Forall₂
          (fun r b => b.length = 5 ∧ b.Perm
            [⟨imageVulnDesc, ValueType.GaugeValue, float64 r.Report.Summary.CriticalCount,
                vulnerabilityIdentity r ++ ["Critical"]⟩,
             ⟨imageVulnDesc, ValueType.GaugeValue, float64 r.Report.Summary.HighCount,
                vulnerabilityIdentity r ++ ["High"]⟩,
             ⟨imageVulnDesc, ValueType.GaugeValue, float64 r.Report.Summary.MediumCount,
                vulnerabilityIdentity r ++ ["Medium"]⟩,
             ⟨imageVulnDesc, ValueType.GaugeValue, float64 r.Report.Summary.LowCount,
                vulnerabilityIdentity r ++ ["Low"]⟩,
             ⟨imageVulnDesc, ValueType.GaugeValue, float64 r.Report.Summary.UnknownCount,
                vulnerabilityIdentity r ++ ["Unknown"]⟩])
          (listed c.Client.ListVulnerabilityReports (resolvedNamespaces c)) vuln ∧
        List.Forall₂
          (fun r b => b.length = 4 ∧ b.Perm
            [⟨exposedSecretDesc, ValueType.GaugeValue, float64 r.Report.Summary.CriticalCount,
                exposedSecretIdentity r ++ ["Critical"]⟩,
             ⟨exposedSecretDesc, ValueType.GaugeValue, float64 r.Report.Summary.HighCount,
                exposedSecretIdentity r ++ ["High"]⟩,
             ⟨exposedSecretDesc, ValueType.GaugeValue, float64 r.Report.Summary.MediumCount,
                exposedSecretIdentity r ++ ["Medium"]⟩,
             ⟨exposedSecretDesc, ValueType.GaugeValue, float64 r.Report.Summary.LowCount,
                exposedSecretIdentity r ++ ["Low"]⟩])
          (listed c.Client.ListExposedSecretReports (resolvedNamespaces c)) secrets ∧
        List.Forall₂
          (fun r b => b.length = 4 ∧ b.Perm
            [⟨configAuditDesc, ValueType.GaugeValue, float64 r.Report.Summary.CriticalCount,
                configAuditIdentity r ++ ["Critical"]⟩,
             ⟨configAuditDesc, ValueType.GaugeValue, float64 r.Report.Summary.HighCount,
                configAuditIdentity r ++ ["High"]⟩,
             ⟨configAuditDesc, ValueType.GaugeValue, float64 r.Report.Summary.MediumCount,
                configAuditIdentity r ++ ["Medium"]⟩,
             ⟨configAuditDesc, ValueType.GaugeValue, float64 r.Report.Summary.LowCount,
                configAuditIdentity r ++ ["Low"]⟩])
          (listed c.Client.ListConfigAuditReports (resolvedNamespaces c)) audits := by
  obtain ⟨vuln, hv, hfv⟩ := vulnerabilitySamples_blocks rt w.ranges
    (listed c.Client.ListVulnerabilityReports (resolvedNamespaces c))
  obtain ⟨secrets, hs, hfs⟩ := exposedSecretSamples_blocks rt
    (w.ranges + (listed c.Client.ListVulnerabilityReports (resolvedNamespaces c)).length)
    (listed c.Client.ListExposedSecretReports (resolvedNamespaces c))
  obtain ⟨audits, ha, hfa⟩ := configAuditSamples_blocks rt
    (w.ranges + (listed c.Client.ListVulnerabilityReports (resolvedNamespaces c)).length
      + (listed c.Client.ListExposedSecretReports (resolvedNamespaces c)).length)
    (listed c.Client.ListConfigAuditReports (resolvedNamespaces c))
  refine ⟨_, Collect_eq c rt w, vuln, secrets, audits, ?_, ?_, ?_, ?_, ?_⟩
  · simp only [hv, hs, ha]
  · rw [← hs]
    exact exposedSecretSamples_desc rt _ _
  · exact hfv.imp fun r b h => ⟨h.length_eq, h⟩
  · exact hfs.imp fun r b h => ⟨h.length_eq, h⟩
  · exact hfa.imp fun r b h => ⟨h.length_eq, h⟩

/-- C4: a pass never fails; its samples are, kind by kind, exactly the samples of the
reports returned by the namespaces whose listing succeeded, each kind from its own
listings; every failed listing is logged with its cause and namespace; and the pass emits
the same samples as over a cache in which every failing listing is an empty one, so a
failed namespace contributes nothing, not even the items still held by the list object. -/
theorem listing_failures_are_isolated (c : ResourcesMetricsCollector) (rt : Runtime)
    (w : World) :
    ∃ w', Collect c rt w = .ok w' ∧
      w'.metrics = w.metrics ++
        vulnerabilitySamples rt w.ranges
          (listed c.Client.ListVulnerabilityReports (resolvedNamespaces c)) ++
        exposedSecretSamples rt
          (w.ranges + (listed c.Client.ListVulnerabilityReports (resolvedNamespaces c)).length)
          (listed c.Client.ListExposedSecretReports (resolvedNamespaces c)) ++
        configAuditSamples rt
          (w.ranges + (listed c.Client.ListVulnerabilityReports (resolvedNamespaces c)).length
            + (listed c.Client.ListExposedSecretReports (resolvedNamespaces c)).length)
          (listed c.Client.ListConfigAuditReports (resolvedNamespaces c)) ∧
      w'.errorLog = w.errorLog ++
        listFailures c.Client.ListVulnerabilityReports
          "failed to list vulnerabilityreports from API" (resolvedNamespaces c) ++
        listFailures c.Client.ListExposedSecretReports
          "failed to list exposedsecretreports from API" (resolvedNamespaces c) ++
        listFailures c.Client.ListConfigAuditReports
          "failed to list configauditreports from API" (resolvedNamespaces c) ∧
      (Collect (withEmptyOnFailure c) rt w).map (fun w'' => w''.metrics) = .ok w'.metrics := by
  refine ⟨_, Collect_eq c rt w, rfl, rfl, ?_⟩
  rw [Collect_eq (withEmptyOnFailure c) rt w]
  simp only [Except.map, withEmptyOnFailure, resolvedNamespaces, listed_emptyOnFailure]

/-- C6: in one pass the lister is called, for each of the three kinds collected, once per
resolved namespace, in order: when no target namespace is configured that is one call per
kind with the unscoped filter `""`, otherwise one call per kind for each configured
namespace with that namespace as the filter, so that a filter is used as many times as it
is configured. -/
theorem lister_called_once_per_namespace (c : ResourcesMetricsCollector) (rt : Runtime)
    (w : World) :
    ∃ w', Collect c rt w = .ok w' ∧
      ∃ calls : List (Kind × String), w'.listCalls = w.listCalls ++ calls ∧
        (if c.Config.GetTargetNamespaces = [] then
          calls = [(Kind.VulnerabilityReport, ""), (Kind.ExposedSecretReport, ""),
            (Kind.ConfigAuditReport, "")]
        else
          calls =
            (c.Config.GetTargetNamespaces.map fun n => (Kind.VulnerabilityReport, n)) ++
            (c.Config.GetTargetNamespaces.map fun n => (Kind.ExposedSecretReport, n)) ++
            (c.Config.GetTargetNamespaces.map fun n => (Kind.ConfigAuditReport, n))) ∧
        ∀ n : String,
          calls.count (Kind.VulnerabilityReport, n) =
            (if c.Config.GetTargetNamespaces = [] then (if n = "" then 1 else 0)
              else c.Config.GetTargetNamespaces.count n) ∧
          calls.count (Kind.ExposedSecretReport, n) =
            (if c.Config.GetTargetNamespaces = [] then (if n = "" then 1 else 0)
              else c.Config.GetTargetNamespaces.count n) ∧
          calls.count (Kind.ConfigAuditReport, n) =
            (if c.Config.GetTargetNamespaces = [] then (if n = "" then 1 else 0)
              else c.Config.GetTargetNamespaces.count n) := by
  have hcount : ∀ (k k' : Kind) (n : String) (l : List String),
      (l.map fun x => (k, x)).count (k', n) = if k = k' then l.count n else 0 := by
    intro k k' n l
    induction l with
    | nil => simp
    | cons a l ih =>
      simp only [List.map_cons, List.count_cons, ih]
      by_cases hk : k = k'
      · subst hk
        by_cases ha : a = n
        · simp [ha]
        · simp [ha]
      · simp [hk]
  refine ⟨_, Collect_eq c rt w,
    ((resolvedNamespaces c).map fun n => (Kind.VulnerabilityReport, n)) ++
    ((resolvedNamespaces c).map fun n => (Kind.ExposedSecretReport, n)) ++
    ((resolvedNamespaces c).map fun n => (Kind.ConfigAuditReport, n)), ?_, ?_, ?_⟩
  · simp only [List.append_assoc]
  · by_cases h : c.Config.GetTargetNamespaces = []
    · simp [resolvedNamespaces, h]
    · simp [resolvedNamespaces, h]
  · intro n
    simp only [List.count_append, hcount]
    by_cases h : c.Config.GetTargetNamespaces = []
    · by_cases hn : n = "" <;> simp [resolvedNamespaces, h, hn, List.count_cons]
    · simp [resolvedNamespaces, h]

theorem mem_vulnerabilityBuckets (r : VulnerabilityReport) (m : Metric)
    (hm : m ∈ vulnerabilityBuckets r) :
    m.desc = imageVulnDesc ∧ m.valType = ValueType.GaugeValue ∧
      ∃ sev ∈ ["Critical", "High", "Medium", "Low", "Unknown"],
        m.labelValues = [r.Namespace, r.Name, r.Report.Registry.Server,
          r.Report.Artifact.Repository, r.Report.Artifact.Tag, r.Report.Artifact.Digest, sev] := by
  simp only [vulnerabilityBuckets, List.mem_cons, List.mem_singleton, List.not_mem_nil,
    or_false] at hm
  rcases hm with rfl | rfl | rfl | rfl | rfl <;>
    simp [vulnerabilitySample, vulnerabilityIdentity]

theorem scenario_listed (reportName : String) (targetNamespaces : List String)
    (h : targetNamespaces = [] ∨ targetNamespaces = ["ns1"]) :
    listed (scenarioCollector reportName targetNamespaces).Client.ListVulnerabilityReports
        (resolvedNamespaces (scenarioCollector reportName targetNamespaces)) =
      [scenarioReport reportName] ∧
    listed (scenarioCollector reportName targetNamespaces).Client.ListExposedSecretReports
        (resolvedNamespaces (scenarioCollector reportName targetNamespaces)) = [] ∧
    listed (scenarioCollector reportName targetNamespaces).Client.ListConfigAuditReports
        (resolvedNamespaces (scenarioCollector reportName targetNamespaces)) = [] := by
  rcases h with rfl | rfl <;>
    simp [listed, resolvedNamespaces, scenarioCollector, cacheOf, scenarioReport]

/-- C5: the descriptor of vulnerability samples is `trivy_image_vulnerabilities` with the
seven labels namespace, name, image_registry, image_repository, image_tag, image_digest,
severity; a pass never reaches a panic, and every sample it emits for a listed
vulnerability report has that descriptor, as many label values as the descriptor has
labels, and the label values of that very report followed by the name of a severity
bucket, although the label buffer is shared by all reports and buckets.  In the scenario
of the spec (one report in `ns1`, whether `ns1` is the configured namespace or none is
configured) the pass emits exactly the five expected samples, in some order. -/
theorem vulnerability_samples_carry_report_labels (c : ResourcesMetricsCollector)
    (rt : Runtime) (w : World) (reportName : String) :
    (imageVulnDesc.fqName = "trivy_image_vulnerabilities" ∧
      imageVulnDesc.variableLabels = ["namespace", "name", "image_registry",
        "image_repository", "image_tag", "image_digest", "severity"]) ∧
    (∃ w', Collect c rt w = .ok w' ∧
      ∃ (vuln : List (List Metric)) (others : List Metric),
        w'.metrics = w.metrics ++ vuln.flatten ++ others ∧
        (∀ m ∈ others, m.desc ≠ imageVulnDesc) ∧
        List.Forall₂
          (fun r b => b.length = 5 ∧ ∀ m ∈ b,
            m.desc = imageVulnDesc ∧
            m.labelValues.length = 7 ∧
            m.labelValues.length = m.desc.variableLabels.length ∧
            ∃ sev ∈ ["Critical", "High", "Medium", "Low", "Unknown"],
              m.labelValues = [r.Namespace, r.Name, r.Report.Registry.Server,
                r.Report.Artifact.Repository, r.Report.Artifact.Tag, r.Report.Artifact.Digest,
                sev])
          (listed c.Client.ListVulnerabilityReports (resolvedNamespaces c)) vuln) ∧
    (∃ w₁ w₂,
      Collect (scenarioCollector reportName ["ns1"]) rt {} = .ok w₁ ∧
      Collect (scenarioCollector reportName []) rt {} = .ok w₂ ∧
      w₁.metrics = w₂.metrics ∧
      w₁.metrics.Perm
        [⟨imageVulnDesc, ValueType.GaugeValue, float64 2,
            ["ns1", reportName, "reg.io", "app", "v1", "sha256:abc", "Critical"]⟩,
         ⟨imageVulnDesc, ValueType.GaugeValue, float64 0,
            ["ns1", reportName, "reg.io", "app", "v1", "sha256:abc", "High"]⟩,
         ⟨imageVulnDesc, ValueType.GaugeValue, float64 1,
            ["ns1", reportName, "reg.io", "app", "v1", "sha256:abc", "Medium"]⟩,
         ⟨imageVulnDesc, ValueType.GaugeValue, float64 0,
            ["ns1", reportName, "reg.io", "app", "v1", "sha256:abc", "Low"]⟩,
         ⟨imageVulnDesc, ValueType.GaugeValue, float64 0,
            ["ns1", reportName, "reg.io", "app", "v1", "sha256:abc", "Unknown"]⟩]) := by
  refine ⟨⟨by decide, by decide⟩, ?_, ?_⟩
  · obtain ⟨vuln, hv, hfv⟩ := vulnerabilitySamples_blocks rt w.ranges
      (listed c.Client.ListVulnerabilityReports (resolvedNamespaces c))
    refine ⟨_, Collect_eq c rt w, vuln,
      exposedSecretSamples rt
        (w.ranges + (listed c.Client.ListVulnerabilityReports (resolvedNamespaces c)).length)
        (listed c.Client.ListExposedSecretReports (resolvedNamespaces c)) ++
      configAuditSamples rt
        (w.ranges + (listed c.Client.ListVulnerabilityReports (resolvedNamespaces c)).length
          + (listed c.Client.ListExposedSecretReports (resolvedNamespaces c)).length)
        (listed c.Client.ListConfigAuditReports (resolvedNamespaces c)), ?_, ?_, ?_⟩
    · simp only [hv, List.append_assoc]
    · intro m hm
      rcases List.mem_append.1 hm with h | h
      · rw [exposedSecretSamples_desc rt _ _ m h]
        decide
      · rw [configAuditSamples_desc rt _ _ m h]
        decide
    · refine hfv.imp fun r b h => ⟨h.length_eq, fun m hm => ?_⟩
      obtain ⟨hd, _, sev, hsev, hl⟩ := mem_vulnerabilityBuckets r m (h.subset hm)
      refine ⟨hd, ?_, ?_, sev, hsev, hl⟩
      · rw [hl]; rfl
      · rw [hl, hd]; rfl
  · obtain ⟨h1, h2, h3⟩ := scenario_listed reportName ["ns1"] (Or.inr rfl)
    obtain ⟨k1, k2, k3⟩ := scenario_listed reportName [] (Or.inl rfl)
    refine ⟨_, _, Collect_eq _ rt {}, Collect_eq _ rt {}, ?_, ?_⟩
    · simp only [h1, h2, h3, k1, k2, k3]
    · simp only [h1, h2, h3]
      simp only [vulnerabilitySamples, exposedSecretSamples, configAuditSamples,
        List.nil_append, List.append_nil]
      exact (rangeMap_perm imageVulnSeverities _).map _

theorem mem_exposedSecretBuckets (r : ExposedSecretReport) (m : Metric)
    (hm : m ∈ exposedSecretBuckets r) :
    m.desc = exposedSecretDesc ∧
      ∃ sev ∈ ["Critical", "High", "Medium", "Low"],
        m.labelValues = [r.Namespace, r.Name, r.Report.Registry.Server,
          r.Report.Artifact.Repository, r.Report.Artifact.Tag, r.Report.Artifact.Digest, sev] := by
  simp only [exposedSecretBuckets, List.mem_cons, List.mem_singleton, List.not_mem_nil,
    or_false] at hm
  rcases hm with rfl | rfl | rfl | rfl <;>
    simp [exposedSecretSample, exposedSecretIdentity]

/-- C7, as stated, fails: for an exposed-secret report in `ns1` whose summary has one
finding in every bucket (Unknown included, where the summary type has that field), a pass
emits four samples for `trivy_image_exposedsecrets`, not five, and none for Unknown. -/
theorem exposed_secret_unknown_counterexample :
    secretCollectorExample.Client.ListExposedSecretReports "ns1" = .ok [secretReportExample] ∧
    secretReportExample.Report.Summary.UnknownCount = 1 ∧
    exposedSecretDesc.fqName = "trivy_image_exposedsecrets" ∧
    (Collect secretCollectorExample literalOrder {}).map (fun w => w.metrics) =
      .ok [⟨exposedSecretDesc, ValueType.GaugeValue, float64 1,
              ["ns1", "secrets", "reg.io", "app", "v1", "sha256:abc", "Critical"]⟩,
           ⟨exposedSecretDesc, ValueType.GaugeValue, float64 1,
              ["ns1", "secrets", "reg.io", "app", "v1", "sha256:abc", "High"]⟩,
           ⟨exposedSecretDesc, ValueType.GaugeValue, float64 1,
              ["ns1", "secrets", "reg.io", "app", "v1", "sha256:abc", "Medium"]⟩,
           ⟨exposedSecretDesc, ValueType.GaugeValue, float64 1,
              ["ns1", "secrets", "reg.io", "app", "v1", "sha256:abc", "Low"]⟩] :=
  ⟨rfl, rfl, by decide, rfl⟩

/-- C7, amended: the severity buckets of exposed-secret reports are Critical, High, Medium
and Low, without Unknown.  For every exposed-secret report returned by a successful
listing, a pass emits exactly 4 samples for descriptor `trivy_image_exposedsecrets`, one
for each of Critical, High, Medium and Low, valued at the summary field of that bucket;
no sample of the pass for that descriptor carries the severity Unknown. -/
theorem exposed_secret_reports_yield_four_samples (c : ResourcesMetricsCollector)
    (rt : Runtime) (w : World) :
    (exposedSecretDesc.fqName = "trivy_image_exposedsecrets" ∧
      exposedSecretSeverities.map Prod.fst = ["Critical", "High", "Medium", "Low"]) ∧
    ∃ w', Collect c rt w = .ok w' ∧
      ∃ (before : List Metric) (secrets : List (List Metric)) (after : List Metric),
        w'.metrics = w.metrics ++ before ++ secrets.flatten ++ after ∧
        (∀ m ∈ before ++ after, m.desc ≠ exposedSecretDesc) ∧
        List.Forall₂
          (fun r b => b.length = 4 ∧
            b.Perm
              [⟨exposedSecretDesc, ValueType.GaugeValue, float64 r.Report.Summary.CriticalCount,
                  exposedSecretIdentity r ++ ["Critical"]⟩,
               ⟨exposedSecretDesc, ValueType.GaugeValue, float64 r.Report.Summary.HighCount,
                  exposedSecretIdentity r ++ ["High"]⟩,
               ⟨exposedSecretDesc, ValueType.GaugeValue, float64 r.Report.Summary.MediumCount,
                  exposedSecretIdentity r ++ ["Medium"]⟩,
               ⟨exposedSecretDesc, ValueType.GaugeValue, float64 r.Report.Summary.LowCount,
                  exposedSecretIdentity r ++ ["Low"]⟩] ∧
            ∀ m ∈ b, m.labelValues.getLast? ≠ some "Unknown")
          (listed c.Client.ListExposedSecretReports (resolvedNamespaces c)) secrets := by
  refine ⟨⟨by decide, by decide⟩, ?_⟩
  obtain ⟨secrets, hs, hfs⟩ := exposedSecretSamples_blocks rt
    (w.ranges + (listed c.Client.ListVulnerabilityReports (resolvedNamespaces c)).length)
    (listed c.Client.ListExposedSecretReports (resolvedNamespaces c))
  refine ⟨_, Collect_eq c rt w,
    vulnerabilitySamples rt w.ranges
      (listed c.Client.ListVulnerabilityReports (resolvedNamespaces c)),
    secrets,
    configAuditSamples rt
      (w.ranges + (listed c.Client.ListVulnerabilityReports (resolvedNamespaces c)).length
        + (listed c.Client.ListExposedSecretReports (resolvedNamespaces c)).length)
      (listed c.Client.ListConfigAuditReports (resolvedNamespaces c)), ?_, ?_, ?_⟩
  · simp only [hs]
  · intro m hm
    rcases List.mem_append.1 hm with h | h
    · rw [vulnerabilitySamples_desc rt _ _ m h]
      decide
    · rw [configAuditSamples_desc rt _ _ m h]
      decide
  · refine hfs.imp fun r b h => ⟨h.length_eq, h, fun m hm => ?_⟩
    obtain ⟨_, sev, hsev, hl⟩ := mem_exposedSecretBuckets r m (h.subset hm)
    rw [hl]
    simp only [List.mem_cons, List.mem_singleton, List.not_mem_nil, or_false] at hsev
    rcases hsev with rfl | rfl | rfl | rfl <;> simp

/-- C8, as stated, fails: with an RBAC-assessment report in the cache for `ns1`, whose
summary counts one critical failure, a pass over `ns1` emits no sample at all and calls
the lister for the three other kinds only. -/
theorem rbac_reports_not_collected_counterexample :
    rbacCollectorExample.Client.ListRbacAssessmentReports "ns1" = .ok [rbacReportExample] ∧
    rbacReportExample.Report.Summary.CriticalCount = 1 ∧
    (Collect rbacCollectorExample literalOrder {}).map (fun w => (w.metrics, w.listCalls)) =
      .ok ([], [(Kind.VulnerabilityReport, "ns1"), (Kind.ExposedSecretReport, "ns1"),
        (Kind.ConfigAuditReport, "ns1")]) :=
  ⟨rfl, rfl, rfl⟩

/-- C8, amended: RBAC-assessment reports are not converted into gauges by a collection
pass.  The pass is the same whatever the cache answers for RBAC-assessment reports, it
never calls the lister for that kind, and every sample it emits belongs to one of the
three descriptors of `Describe` (vulnerabilities, config audits, exposed secrets).  For
every config-audit report returned by a successful listing it emits one sample per
severity bucket (Critical, High, Medium, Low) labelled with the (namespace, name) of the
report and the bucket name, valued at the corresponding `ConfigAuditSummary` field. -/
theorem rbac_reports_are_not_collected (c : ResourcesMetricsCollector) (rt : Runtime)
    (w : World) (rbac : String → Except String (List RbacAssessmentReport)) :
    Collect { c with Client := { c.Client with ListRbacAssessmentReports := rbac } } rt w =
      Collect c rt w ∧
    ∃ w', Collect c rt w = .ok w' ∧
      ∃ (calls : List (Kind × String)) (images : List Metric) (audits : List (List Metric)),
        w'.listCalls = w.listCalls ++ calls ∧
        (∀ n : String, (Kind.RbacAssessmentReport, n) ∉ calls) ∧
        w'.metrics = w.metrics ++ images ++ audits.flatten ∧
        (∀ m ∈ images ++ audits.flatten, m.desc ∈ Describe) ∧
        (∀ m ∈ images, m.desc ≠ configAuditDesc) ∧
        List.Forall₂
          (fun r b => b.Perm
            [⟨configAuditDesc, ValueType.GaugeValue, float64 r.Report.Summary.CriticalCount,
                [r.Namespace, r.Name, "Critical"]⟩,
             ⟨configAuditDesc, ValueType.GaugeValue, float64 r.Report.Summary.HighCount,
                [r.Namespace, r.Name, "High"]⟩,
             ⟨configAuditDesc, ValueType.GaugeValue, float64 r.Report.Summary.MediumCount,
                [r.Namespace, r.Name, "Medium"]⟩,
             ⟨configAuditDesc, ValueType.GaugeValue, float64 r.Report.Summary.LowCount,
                [r.Namespace, r.Name, "Low"]⟩])
          (listed c.Client.ListConfigAuditReports (resolvedNamespaces c)) audits := by
  refine ⟨?_, ?_⟩
  · rw [Collect_eq, Collect_eq]
    rfl
  obtain ⟨audits, ha, hfa⟩ := configAuditSamples_blocks rt
    (w.ranges + (listed c.Client.ListVulnerabilityReports (resolvedNamespaces c)).length
      + (listed c.Client.ListExposedSecretReports (resolvedNamespaces c)).length)
    (listed c.Client.ListConfigAuditReports (resolvedNamespaces c))
  refine ⟨_, Collect_eq c rt w,
    ((resolvedNamespaces c).map fun n => (Kind.VulnerabilityReport, n)) ++
    ((resolvedNamespaces c).map fun n => (Kind.ExposedSecretReport, n)) ++
    ((resolvedNamespaces c).map fun n => (Kind.ConfigAuditReport, n)),
    vulnerabilitySamples rt w.ranges
      (listed c.Client.ListVulnerabilityReports (resolvedNamespaces c)) ++
    exposedSecretSamples rt
      (w.ranges + (listed c.Client.ListVulnerabilityReports (resolvedNamespaces c)).length)
      (listed c.Client.ListExposedSecretReports (resolvedNamespaces c)),
    audits, ?_, ?_, ?_, ?_, ?_, hfa⟩
  · simp only [List.append_assoc]
  · intro n hn
    simp at hn
  · simp only [ha, List.append_assoc]
  · intro m hm
    rw [← ha] at hm
    rcases List.mem_append.1 hm with h | h
    · rcases List.mem_append.1 h with h | h
      · rw [vulnerabilitySamples_desc rt _ _ m h]
        simp [Describe]
      · rw [exposedSecretSamples_desc rt _ _ m h]
        simp [Describe]
    · rw [configAuditSamples_desc rt _ _ m h]
      simp [Describe]
  · intro m hm
    rcases List.mem_append.1 hm with h | h
    · rw [vulnerabilitySamples_desc rt _ _ m h]
      decide
    · rw [exposedSecretSamples_desc rt _ _ m h]
      decide

end metrics
